import Mathlib

/-! Waywise backend: schedules and routes.

A shallow embedding of `backend/src/routes/routes.js`,
`backend/src/routes/schedules.js`, `backend/src/routes/auth.js`,
`backend/src/middleware/auth.js`, `backend/src/middleware/errorHandler.js` and
of three functions of `frontend/src/screens/RoutePlanningScreen.js`.

Conventions of the embedding:

* A JavaScript `Date` rendered with `toISOString()` is a natural number of
  milliseconds since the epoch (the rendering is injective and, for four-digit
  years, order preserving).
* Ambient effects are explicit.  A handler receives an `Env`: `env.now k` is the
  value of the `k`-th clock reading (`Date.now()` or `new Date()`) made while the
  request is served, `env.uuid k` is the result of the `k`-th `uuidv4()` call.
* The module-level `Map`s `routes` and `schedules` are association lists that are
  passed in and returned.
* `validationResult(req)` comes from express-validator; its list of errors is a
  field of the request, next to the body the handler destructures.
* A `try { ... } catch (error) { ... }` is an `Except String` computation (the
  string is `error.message`) followed by the catch function.
* A handler runs without interruption up to an `await` on a promise that is
  still pending.  `optimizeRoute` and `parseScheduleText` return promises that
  are already resolved, so their handlers are single steps; `bcrypt.hash` is
  pending while the hash is computed, so the register handler is given in two
  parts, before and after that `await`.  The login handler also waits, for
  `bcrypt.compare`, but it reads the map only before the wait and never writes,
  so it is given as one step.
* Numbers are natural numbers where the code keeps to integers below `2^53`
  (clock readings, counters), on which the arithmetic of doubles is exact;
  `formatTime`, which a claim takes over all integers, has the division of
  doubles.
-/

set_option autoImplicit false

namespace Waywise

/-! ## Data model -/

/-- Coordinates `{ lat, lon }`. -/
structure Coordinates where
  lat : Rat
  lon : Rat
deriving DecidableEq

/-- Time constraint `{ type, time }` of a destination; `time` is `null` or a
wall-clock string such as `"14:00"`. -/
structure TimeConstraint where
  type : String
  time : Option String
deriving DecidableEq

/-- Destination as produced by the parser and consumed by the optimizer. -/
structure Destination where
  id : String
  name : String
  address : String
  coordinates : Coordinates
  time_constraint : TimeConstraint
  required : Bool
deriving DecidableEq

/-- One element of `optimized_sequence`. -/
structure Stop where
  order : Nat
  destination : Destination
  arrival_time : Nat
  departure_time : Nat
  travel_time_from_previous_minutes : Nat
  traffic_delay_minutes : Nat
deriving DecidableEq

/-- The `summary` object of an optimized route; `arrival_time` is `undefined`
(`none`) when the sequence is empty. -/
structure Summary where
  total_distance_meters : Nat
  total_time_minutes : Nat
  total_traffic_delay_minutes : Nat
  departure_time : String
  arrival_time : Option Nat
deriving DecidableEq

/-- Value returned by `optimizeRoute`. -/
structure OptimizedData where
  optimized_sequence : List Stop
  summary : Summary
  polyline : String
deriving DecidableEq

/-- Stored route: `{ route_id, user_id, ...optimizedData, created_at, expires_at }`. -/
structure Route where
  route_id : String
  user_id : String
  optimized_sequence : List Stop
  summary : Summary
  polyline : String
  created_at : Nat
  expires_at : Nat
deriving DecidableEq

/-- One turn-by-turn step of `generateRouteSteps`. -/
structure RouteStep where
  instruction : String
  distance_meters : Nat
  duration_seconds : Nat
  start_location : Coordinates
  end_location : Coordinates
  maneuver : String
deriving DecidableEq

/-- Stored schedule. -/
structure Schedule where
  schedule_id : String
  user_id : String
  original_text : String
  timezone : String
  destinations : List Destination
  ambiguities : List String
  created_at : Nat
deriving DecidableEq

/-- Value returned by the schedule parser; `destinations` may be missing. -/
structure ParsedData where
  destinations : Option (List Destination)
  ambiguities : List String
deriving DecidableEq

/-- Body of the 200 response of `POST /schedules/parse`. -/
structure ParseResponse where
  schedule_id : String
  user_id : String
  destinations : List Destination
  ambiguities : List String
  created_at : Nat
deriving DecidableEq

/-- One entry of `errors.array()` of express-validator. -/
structure ValidationError where
  msg : String
  param : String
  location : String
deriving DecidableEq

/-- The optional `details` member of an error body. -/
inductive Details where
  | absent
  | text (s : String)
  | validation (errors : List ValidationError)
deriving DecidableEq

/-- JSON body of a response. -/
inductive Body where
  | error (code : String) (message : String) (details : Details)
  | route (r : Route)
  | routeWithSteps (r : Route) (steps : List RouteStep)
  | schedule (s : Schedule)
  | parsed (p : ParseResponse)
deriving DecidableEq

/-- Response `res.status(status).json(body)`. -/
structure Response where
  status : Nat
  body : Body
deriving DecidableEq

/-- Ambient effects seen by one request: clock readings and generated uuids. -/
structure Env where
  now : Nat → Nat
  uuid : Nat → String

/-! ## The in-memory maps -/

/-- A JavaScript `Map` with string keys, in insertion order. -/
abbrev Store (α : Type) := List (String × α)

/-- `Map.prototype.get`: `none` stands for `undefined`. -/
def mapGet {α : Type} : Store α → String → Option α
  | [], _ => none
  | (k, v) :: rest, key => if k = key then some v else mapGet rest key

/-- `Map.prototype.set`: replaces the value of an existing key, else appends. -/
def mapSet {α : Type} : Store α → String → α → Store α
  | [], key, value => [(key, value)]
  | (k, v) :: rest, key, value =>
      if k = key then (key, value) :: rest else (k, v) :: mapSet rest key value

/-! ## routes.js -/

/-- `Preferences` object of the optimize request (never read by the handler). -/
structure Preferences where
  avoid_tolls : Option Bool
  avoid_highways : Option Bool
deriving DecidableEq

/-- `optimizeRoute(destinations, origin, departureTime, preferences)`.
Element `index` of the `map` reads the clock twice: reading `2 * index` for
`arrival_time`, reading `2 * index + 1` for `departure_time`. -/
def optimizeRoute (now : Nat → Nat) (destinations : List Destination)
    (_origin : Coordinates) (departureTime : String)
    (_preferences : Option Preferences) : OptimizedData :=
  let mockOptimizedSequence : List Stop :=
    (List.range destinations.length).zipWith
      (fun index dest =>
        { order := index + 1
          destination := dest
          arrival_time := now (2 * index) + (index + 1) * 45 * 60000
          departure_time := now (2 * index + 1) + (index + 1) * 45 * 60000 + 30 * 60000
          travel_time_from_previous_minutes := 45
          traffic_delay_minutes := 15 })
      destinations
  { optimized_sequence := mockOptimizedSequence
    summary :=
      { total_distance_meters := 15000
        total_time_minutes := 147
        total_traffic_delay_minutes := 23
        departure_time := departureTime
        arrival_time := (mockOptimizedSequence.getLast?).map (fun s => s.arrival_time) }
    polyline := "encoded_polyline_string_here" }

/-- `generateRouteSteps()`. -/
def generateRouteSteps : List RouteStep :=
  [ { instruction := "Head north on Main St"
      distance_meters := 500
      duration_seconds := 120
      start_location := { lat := 37.7649, lon := -122.4294 }
      end_location := { lat := 37.7699, lon := -122.4294 }
      maneuver := "straight" },
    { instruction := "Turn right onto Oak Ave"
      distance_meters := 800
      duration_seconds := 180
      start_location := { lat := 37.7699, lon := -122.4294 }
      end_location := { lat := 37.7749, lon := -122.4194 }
      maneuver := "turn-right" } ]

/-- Destructured `req.body` of `POST /routes/optimize`. -/
structure OptimizeBody where
  schedule_id : Option String
  destinations : Option (List Destination)
  origin : Coordinates
  departure_time : String
  preferences : Option Preferences
deriving DecidableEq

/-- Request of `POST /routes/optimize` as the handler sees it: the
authenticated `req.user.sub`, the validation errors and the body. -/
structure OptimizeRequest where
  userId : String
  errors : List ValidationError
  body : OptimizeBody
deriving DecidableEq

/-- Truthiness of an optional string: `undefined` and `""` are falsy. -/
def truthy : Option String → Bool
  | none => false
  | some s => s != ""

/-- Test `hay` starts with `pat`, on characters. -/
def startsWith : List Char → List Char → Bool
  | _, [] => true
  | [], _ :: _ => false
  | h :: hay, p :: pat => h == p && startsWith hay pat

/-- Substring search on characters. -/
def includesChars : List Char → List Char → Bool
  | [], pat => startsWith [] pat
  | h :: hay, pat => startsWith (h :: hay) pat || includesChars hay pat

/-- `String.prototype.includes`. -/
def includes (s pat : String) : Bool :=
  includesChars s.data pat.data

/-- The `try` block of the `POST /routes/optimize` handler.  After
`optimizeRoute` has consumed `2 * n` clock readings for `n` destinations,
`created_at` takes the next reading and `expires_at` the one after. -/
def optimizeTry (routes : Store Route) (env : Env) (req : OptimizeRequest) :
    Except String (Response × Store Route) :=
  if !req.errors.isEmpty then
    pure (⟨400, .error "VALIDATION_ERROR" "Invalid input data" (.validation req.errors)⟩, routes)
  else
    let routeDestinations := req.body.destinations
    if truthy req.body.schedule_id && routeDestinations.isNone then
      pure (⟨404, .error "SCHEDULE_NOT_FOUND" "Schedule ID does not exist or has expired" .absent⟩,
        routes)
    else
      match routeDestinations with
      | none => pure (⟨400, .error "INVALID_REQUEST" "No destinations provided" .absent⟩, routes)
      | some [] => pure (⟨400, .error "INVALID_REQUEST" "No destinations provided" .absent⟩, routes)
      | some (d :: ds) => do
          let optimizedData ← pure (optimizeRoute env.now (d :: ds) req.body.origin
            req.body.departure_time req.body.preferences)
          let reads := 2 * (d :: ds).length
          let route : Route :=
            { route_id := env.uuid 0
              user_id := req.userId
              optimized_sequence := optimizedData.optimized_sequence
              summary := optimizedData.summary
              polyline := optimizedData.polyline
              created_at := env.now reads
              expires_at := env.now (reads + 1) + 60 * 60 * 1000 }
          pure (⟨200, .route route⟩, mapSet routes route.route_id route)

/-- The `catch (error)` block of the `POST /routes/optimize` handler. -/
def optimizeCatch (message : String) : Response :=
  if includes message "infeasible" then
    ⟨400, .error "INFEASIBLE_SCHEDULE" "Cannot satisfy all time constraints" (.text message)⟩
  else
    ⟨500, .error "INTERNAL_ERROR" "Route optimization failed" .absent⟩

/-- Handler of `POST /routes/optimize`: response and the `routes` map afterwards. -/
def postOptimize (routes : Store Route) (env : Env) (req : OptimizeRequest) :
    Response × Store Route :=
  match optimizeTry routes env req with
  | .ok result => result
  | .error message => (optimizeCatch message, routes)

/-- Handler of `GET /routes/:routeId`.  It makes no clock reading. -/
def getRoute (routes : Store Route) (_env : Env) (routeId userId : String) : Response :=
  match mapGet routes routeId with
  | none => ⟨404, .error "ROUTE_NOT_FOUND" "Route ID does not exist or has expired" .absent⟩
  | some route =>
      if route.user_id ≠ userId then
        ⟨403, .error "FORBIDDEN" "You do not have access to this route" .absent⟩
      else
        ⟨200, .routeWithSteps route generateRouteSteps⟩

/-! ## schedules.js -/

/-- `parseScheduleText(scheduleText)`: the two destination ids are the first two
generated uuids. -/
def parseScheduleText (uuid : Nat → String) (_scheduleText : String) : ParsedData :=
  let mockDestinations : List Destination :=
    [ { id := uuid 0
        name := "dentist"
        address := "123 Main St, San Francisco, CA"
        coordinates := { lat := 37.7749, lon := -122.4194 }
        time_constraint := { type := "arrive_by", time := some "14:00" }
        required := true },
      { id := uuid 1
        name := "grocery store"
        address := "456 Oak Ave, San Francisco, CA"
        coordinates := { lat := 37.7849, lon := -122.4094 }
        time_constraint := { type := "flexible", time := none }
        required := true } ]
  { destinations := some mockDestinations
    ambiguities := [] }

/-- Destructured `req.body` of `POST /schedules/parse` (after the `trim`
sanitizer). -/
structure ParseBody where
  schedule_text : String
  timezone : Option String
deriving DecidableEq

/-- Request of `POST /schedules/parse` as the handler sees it. -/
structure ParseRequest where
  userId : String
  errors : List ValidationError
  body : ParseBody
deriving DecidableEq

/-- The part of the `POST /schedules/parse` handler that follows the call of the
parser; `uuidsUsed` is the number of uuids the parser has generated. -/
def parseAfter (schedules : Store Schedule) (env : Env) (req : ParseRequest)
    (uuidsUsed : Nat) (parsedData : ParsedData) : Response × Store Schedule :=
  match parsedData.destinations with
  | none =>
      (⟨400, .error "INVALID_SCHEDULE" "Could not parse schedule text"
        (.text "No destinations found in the provided text")⟩, schedules)
  | some [] =>
      (⟨400, .error "INVALID_SCHEDULE" "Could not parse schedule text"
        (.text "No destinations found in the provided text")⟩, schedules)
  | some (d :: ds) =>
      let schedule : Schedule :=
        { schedule_id := env.uuid uuidsUsed
          user_id := req.userId
          original_text := req.body.schedule_text
          timezone := req.body.timezone.getD "UTC"
          destinations := d :: ds
          ambiguities := parsedData.ambiguities
          created_at := env.now 0 }
      (⟨200, .parsed
        { schedule_id := schedule.schedule_id
          user_id := req.userId
          destinations := schedule.destinations
          ambiguities := schedule.ambiguities
          created_at := schedule.created_at }⟩,
       mapSet schedules schedule.schedule_id schedule)

/-- The `try` block of the `POST /schedules/parse` handler. -/
def parseTry (schedules : Store Schedule) (env : Env) (req : ParseRequest) :
    Except String (Response × Store Schedule) :=
  if !req.errors.isEmpty then
    pure (⟨400, .error "VALIDATION_ERROR" "Invalid input data" (.validation req.errors)⟩,
      schedules)
  else do
    let parsedData ← pure (parseScheduleText env.uuid req.body.schedule_text)
    pure (parseAfter schedules env req 2 parsedData)

/-- Handler of `POST /schedules/parse`: response and the `schedules` map
afterwards. -/
def postParse (schedules : Store Schedule) (env : Env) (req : ParseRequest) :
    Response × Store Schedule :=
  match parseTry schedules env req with
  | .ok result => result
  | .error _ => (⟨500, .error "INTERNAL_ERROR" "Schedule parsing failed" .absent⟩, schedules)

/-- Handler of `GET /schedules/:scheduleId`.  It makes no clock reading. -/
def getSchedule (schedules : Store Schedule) (_env : Env) (scheduleId userId : String) :
    Response :=
  match mapGet schedules scheduleId with
  | none =>
      ⟨404, .error "SCHEDULE_NOT_FOUND" "Schedule ID does not exist or has expired" .absent⟩
  | some schedule =>
      if schedule.user_id ≠ userId then
        ⟨403, .error "FORBIDDEN" "You do not have access to this schedule" .absent⟩
      else
        ⟨200, .schedule schedule⟩

/-! ## The server as a transition system -/

/-- The two module-level maps. -/
structure State where
  routes : Store Route
  schedules : Store Schedule

/-- State of a freshly started process: both maps are `new Map()`. -/
def State.empty : State := ⟨[], []⟩

/-- An authenticated request to one of the four endpoints. -/
inductive Request where
  | postOptimize (env : Env) (req : OptimizeRequest)
  | getRoute (env : Env) (routeId : String) (userId : String)
  | postParse (env : Env) (req : ParseRequest)
  | getSchedule (env : Env) (scheduleId : String) (userId : String)

/-- Serving one request. -/
def step (s : State) : Request → Response × State
  | .postOptimize env req =>
      let (res, routes) := postOptimize s.routes env req
      (res, { s with routes := routes })
  | .getRoute env routeId userId => (getRoute s.routes env routeId userId, s)
  | .postParse env req =>
      let (res, schedules) := postParse s.schedules env req
      (res, { s with schedules := schedules })
  | .getSchedule env scheduleId userId => (getSchedule s.schedules env scheduleId userId, s)

/-- State after serving the requests in order. -/
def run (s : State) (reqs : List Request) : State :=
  reqs.foldl (fun st r => (step st r).2) s

/-! ## Vocabulary of the properties -/

/-- A route is expired at time `t` when `t` has reached its `expires_at`. -/
def Route.expiredAt (r : Route) (t : Nat) : Prop := r.expires_at ≤ t

instance (r : Route) (t : Nat) : Decidable (r.expiredAt t) := by
  unfold Route.expiredAt; infer_instance

/-- Lifetime of a schedule in the reading of the specification: one hour. -/
def scheduleTtlMs : Nat := 60 * 60 * 1000

/-- Decimal value of a digit character. -/
def digitValue (c : Char) : Option Nat :=
  if c.isDigit then some (c.toNat - 48) else none

/-- Minutes since midnight denoted by a wall-clock string `HH:MM`. -/
def parseHHMM (s : String) : Option Nat :=
  match s.data with
  | [a, b, ':', c, d] =>
      match digitValue a, digitValue b, digitValue c, digitValue d with
      | some a, some b, some c, some d => some ((a * 10 + b) * 60 + (c * 10 + d))
      | _, _, _, _ => none
  | _ => none

/-- A time constraint holds for a visit with the given arrival and departure
instants; the wall-clock time is taken on the day that starts at `dayStart`.
`arrive_by` bounds the arrival from above, `depart_after` bounds the departure
from below, anything else is unconstrained. -/
def constraintMet (dayStart : Nat) (tc : TimeConstraint) (arrival departure : Nat) : Bool :=
  match tc.time.bind parseHHMM with
  | none => true
  | some minutes =>
      if tc.type = "arrive_by" then decide (arrival ≤ dayStart + minutes * 60000)
      else if tc.type = "depart_after" then decide (dayStart + minutes * 60000 ≤ departure)
      else true

/-- A stop meets the time constraint of its destination. -/
def stopMeets (dayStart : Nat) (s : Stop) : Bool :=
  constraintMet dayStart s.destination.time_constraint s.arrival_time s.departure_time

/-- Every stop of the sequence meets its time constraint. -/
def routeMeets (dayStart : Nat) (stops : List Stop) : Bool :=
  stops.all (stopMeets dayStart)

/-- Every stop with a required destination meets its time constraint. -/
def requiredMeet (dayStart : Nat) (stops : List Stop) : Bool :=
  stops.all (fun s => !s.destination.required || stopMeets dayStart s)

/-- An ordering is feasible under the timetable of `optimizeRoute` when the
sequence computed for that ordering meets every time constraint. -/
def feasibleOrder (dayStart : Nat) (now : Nat → Nat) (order : List Destination)
    (origin : Coordinates) (departureTime : String) (preferences : Option Preferences) : Bool :=
  routeMeets dayStart
    (optimizeRoute now order origin departureTime preferences).optimized_sequence

/-- Route `route` was created by an optimize request of user `u` in the request
sequence `reqs`: some request of the sequence is a `POST /routes/optimize`
authenticated as `u` that answered 200 with `route` and left it stored under
its `route_id`. -/
def routeCreatedBy (reqs : List Request) (u : String) (route : Route) : Prop :=
  ∃ pre env req post,
    reqs = pre ++ Request.postOptimize env req :: post ∧ req.userId = u
      ∧ (step (run State.empty pre) (.postOptimize env req)).1 = ⟨200, .route route⟩
      ∧ mapGet (step (run State.empty pre) (.postOptimize env req)).2.routes route.route_id
          = some route

/-- Schedule `s` was created by a parse request of user `u` in the request
sequence `reqs`: some request of the sequence is a `POST /schedules/parse`
authenticated as `u` that answered 200 reporting `s` and left it stored under
its `schedule_id`. -/
def scheduleCreatedBy (reqs : List Request) (u : String) (s : Schedule) : Prop :=
  ∃ pre env req post,
    reqs = pre ++ Request.postParse env req :: post ∧ req.userId = u
      ∧ (step (run State.empty pre) (.postParse env req)).1
          = ⟨200, .parsed ⟨s.schedule_id, s.user_id, s.destinations, s.ambiguities,
              s.created_at⟩⟩
      ∧ mapGet (step (run State.empty pre) (.postParse env req)).2.schedules s.schedule_id
          = some s

/-- The stop with 0-based position `index` and destination `dest` in the
timetable of `optimizeRoute`: reached 45 minutes per position after clock
reading `2 * index`, left 30 minutes after reading `2 * index + 1` plus the
same offset. -/
def stopAt (now : Nat → Nat) (index : Nat) (dest : Destination) : Stop :=
  { order := index + 1
    destination := dest
    arrival_time := now (2 * index) + (index + 1) * 45 * 60000
    departure_time := now (2 * index + 1) + (index + 1) * 45 * 60000 + 30 * 60000
    travel_time_from_previous_minutes := 45
    traffic_delay_minutes := 15 }

/-- Destinations carried by a sequence of stops, in order. -/
def stopDestinations (stops : List Stop) : List Destination :=
  stops.map (fun s => s.destination)

/-- Sum of `traffic_delay_minutes` over the stops of a sequence. -/
def sumTrafficDelay (stops : List Stop) : Nat :=
  (stops.map (fun s => s.traffic_delay_minutes)).sum

/-! ## middleware/auth.js -/

/-- Decoded payload of a token, as `generateToken` signs it. -/
structure TokenPayload where
  sub : String
  email : String
  iat : Nat
  exp : Nat
deriving DecidableEq

/-- Error thrown by `jwt.verify`; the middleware reads its `name`. -/
structure JwtError where
  name : String
  message : String
deriving DecidableEq

/-- `String.prototype.split(' ')` on characters: the pieces between single
spaces, empty pieces included; the empty string gives one empty piece. -/
def splitSpace : List Char → List (List Char)
  | [] => [[]]
  | c :: cs =>
      match splitSpace cs with
      | [] => if c = ' ' then [[], []] else [[c]]
      | w :: ws => if c = ' ' then [] :: w :: ws else (c :: w) :: ws

/-- The expression `authHeader && authHeader.split(' ')[1]`: `none` stands for
`undefined`; a falsy header is returned as it is. -/
def extractToken (authHeader : Option String) : Option String :=
  match authHeader with
  | none => none
  | some h => if h = "" then some "" else ((splitSpace h.data)[1]?).map String.mk

/-- What the middleware does with a request: it calls `next()` after setting
`req.user`, or it sends a response and the downstream handler is not run. -/
inductive AuthOutcome where
  | next (user : TokenPayload)
  | respond (res : Response)
deriving DecidableEq

/-- `authenticateToken(req, res, next)`; `verify token` stands for
`jwt.verify(token, process.env.JWT_SECRET)`, which returns the decoded payload
or throws. -/
def authenticateToken (verify : String → Except JwtError TokenPayload)
    (authHeader : Option String) : AuthOutcome :=
  match extractToken authHeader with
  | none => .respond ⟨401, .error "UNAUTHORIZED" "Missing authentication token" .absent⟩
  | some token =>
      if !truthy (some token) then
        .respond ⟨401, .error "UNAUTHORIZED" "Missing authentication token" .absent⟩
      else
        match verify token with
        | .ok decoded => .next decoded
        | .error err =>
            if err.name = "TokenExpiredError" then
              .respond ⟨401, .error "TOKEN_EXPIRED" "Authentication token has expired"
                (.text "Please refresh your token")⟩
            else
              .respond ⟨401, .error "INVALID_TOKEN" "Invalid authentication token" .absent⟩

/-- Mounting `app.use(path, authMiddleware, router)` of app.js: the handler of
the router runs, with the user the middleware has set, only when the middleware
calls `next()`; otherwise the response of the middleware is sent and the state
`st` of the process is untouched. -/
def protect {σ : Type} (verify : String → Except JwtError TokenPayload)
    (authHeader : Option String) (handler : TokenPayload → σ → Response × σ) (st : σ) :
    Response × σ :=
  match authenticateToken verify authHeader with
  | .next user => handler user st
  | .respond res => (res, st)

/-! ## middleware/errorHandler.js -/

/-- Error passed to the error-handling middleware: the properties it reads. -/
structure ThrownError where
  name : String
  message : String
  stack : Option String
deriving DecidableEq

/-- The object `errorResponse.error`.  The handler never assigns `stack`; the
field is here so that `delete errorResponse.error.stack` can be written. -/
structure ErrorEnvelope where
  code : String
  message : String
  request_id : String
  stack : Option String
deriving DecidableEq

/-- `errorHandler(err, req, res, next)`: status and body of the response;
`nodeEnv` is `process.env.NODE_ENV`, the request id is the first uuid. -/
def errorHandler (uuid : Nat → String) (nodeEnv : Option String) (err : ThrownError) :
    Nat × ErrorEnvelope :=
  let requestId := uuid 0
  let status : Nat := 500
  let errorResponse : ErrorEnvelope :=
    { code := "INTERNAL_ERROR"
      message := "An unexpected error occurred"
      request_id := requestId
      stack := none }
  let (status, errorResponse) :=
    if err.name = "ValidationError" then
      (400, { errorResponse with code := "VALIDATION_ERROR", message := err.message })
    else if err.name = "UnauthorizedError" then
      (401, { errorResponse with code := "UNAUTHORIZED", message := "Unauthorized access" })
    else if err.name = "ForbiddenError" then
      (403, { errorResponse with code := "FORBIDDEN", message := "Access denied" })
    else if err.name = "NotFoundError" then
      (404, { errorResponse with
                code := "NOT_FOUND"
                message := if err.message != "" then err.message else "Resource not found" })
    else (status, errorResponse)
  let errorResponse :=
    if nodeEnv = some "production" then { errorResponse with stack := none } else errorResponse
  (status, errorResponse)

/-! ## routes/auth.js -/

/-- Stored user record. -/
structure User where
  user_id : String
  email : String
  name : String
  password : String
  created_at : Nat
deriving DecidableEq

/-- Value of a field of a JSON object: a string or a rendered date. -/
inductive FieldValue where
  | str (s : String)
  | time (ms : Nat)
deriving DecidableEq

/-- JSON object as the list of its fields, in insertion order. -/
abbrev JsonObject := List (String × FieldValue)

/-- The object `{ user_id, email, name, password, created_at }` of a user. -/
def User.toObject (u : User) : JsonObject :=
  [ ("user_id", .str u.user_id), ("email", .str u.email), ("name", .str u.name),
    ("password", .str u.password), ("created_at", .time u.created_at) ]

/-- Rest destructuring `const { key: _, ...rest } = obj`: the fields other than
`key`. -/
def omitKey (key : String) (obj : JsonObject) : JsonObject :=
  obj.filter (fun field => field.1 != key)

/-- The external functions of bcrypt and jsonwebtoken used by the handlers, on
the arguments they accept: `bcrypt.hash(password, 10)` and
`bcrypt.compare(password, hash)` for a string password, and the encoding done by
`jwt.sign(payload, process.env.JWT_SECRET, options)`. -/
structure Crypto where
  hash : String → String
  compare : String → String → Bool
  sign : TokenPayload → String

/-- Value of the `password` field of a request body.  The validators `notEmpty`
and `isLength` of express-validator test the stringified value, so they also
pass a JSON value that is not a string (a number, a boolean, an array, an
object); `other text` is such a value, given by its text. -/
inductive PasswordValue where
  | str (s : String)
  | other (text : String)
deriving DecidableEq

/-- `await bcrypt.hash(password, 10)`: bcrypt rejects data that is neither a
string nor a Buffer; the result is the hash or the message of the rejection
(the handler does not read the message). -/
def bcryptHash (crypto : Crypto) (password : PasswordValue) : Except String String :=
  match password with
  | .str s => .ok (crypto.hash s)
  | .other _ =>
      .error ("data must be a string or Buffer and salt must either be a salt string " ++
        "or a number of rounds")

/-- `await bcrypt.compare(password, hash)`: bcrypt rejects data that is neither
a string nor a Buffer; the result is the verdict or the message of the
rejection (the handler does not read the message). -/
def bcryptCompare (crypto : Crypto) (password : PasswordValue) (hash : String) :
    Except String Bool :=
  match password with
  | .str s => .ok (crypto.compare s hash)
  | .other _ => .error "data and hash must be strings"

/-- The payload that `generateToken(user)` signs: `iat` comes from the first
clock reading, `exp` from the second.  A clock reading is a time value, at most
8.64e15 and so below `2^53`, where `Math.floor(x / 1000)` on doubles is the
integer quotient (`floorDivDouble_thousand`). -/
def tokenPayload (now : Nat → Nat) (user : User) : TokenPayload :=
  { sub := user.user_id
    email := user.email
    iat := now 0 / 1000
    exp := now 1 / 1000 + 24 * 60 * 60 }

/-- `generateToken(user)`. -/
def generateToken (crypto : Crypto) (now : Nat → Nat) (user : User) : String :=
  crypto.sign (tokenPayload now user)

/-- The payload that the issued token carries.  `jwt.sign` of jsonwebtoken sets
`payload.iat = payload.iat || Math.floor(Date.now() / 1000)`: an `iat` of 0 is
falsy and is replaced by a reading that the library makes itself, the third of
the request; `exp` is kept as given. -/
def issuedPayload (now : Nat → Nat) (user : User) : TokenPayload :=
  let payload := tokenPayload now user
  { payload with iat := if payload.iat ≠ 0 then payload.iat else now 2 / 1000 }

/-- JSON body of a response of the auth router. -/
inductive AuthBody where
  | error (code : String) (message : String) (details : Details)
  | user (userResponse : JsonObject)
  | login (access_token : String) (token_type : String) (expires_in : Nat)
      (user : JsonObject)
deriving DecidableEq

/-- Response of the auth router. -/
structure AuthResponse where
  status : Nat
  body : AuthBody
deriving DecidableEq

/-- Destructured `req.body` of `POST /auth/register` (after `normalizeEmail` and
`trim`). -/
structure RegisterBody where
  email : String
  password : PasswordValue
  name : String
deriving DecidableEq

/-- Request of `POST /auth/register` as the handler sees it. -/
structure RegisterRequest where
  errors : List ValidationError
  body : RegisterBody
deriving DecidableEq

/-- `Map.prototype.has`. -/
def mapHas {α : Type} (m : Store α) (key : String) : Bool :=
  (mapGet m key).isSome

/-- The first part of the `POST /auth/register` handler, which runs without
interruption up to `await bcrypt.hash(password, 10)`: `some res` when the handler
has responded (validation error, or the email is in the map), `none` when it is
suspended at the `await`.  It does not change the `users` map. -/
def registerCheck (users : Store User) (req : RegisterRequest) : Option AuthResponse :=
  if !req.errors.isEmpty then
    some ⟨400, .error "VALIDATION_ERROR" "Invalid input data" (.validation req.errors)⟩
  else if mapHas users req.body.email then
    some ⟨409, .error "EMAIL_EXISTS" "Email already registered" .absent⟩
  else none

/-- The second part of the `POST /auth/register` handler, which runs when
`bcrypt.hash` has settled, on the `users` map as it is at that moment (other
requests may have been served while the handler was suspended).  A rejection of
`bcrypt.hash` is caught by the `catch` block. -/
def registerResume (crypto : Crypto) (users : Store User) (env : Env) (req : RegisterRequest) :
    AuthResponse × Store User :=
  match bcryptHash crypto req.body.password with
  | .error _ => (⟨500, .error "INTERNAL_ERROR" "Registration failed" .absent⟩, users)
  | .ok hashedPassword =>
      let user : User :=
        { user_id := env.uuid 0
          email := req.body.email
          name := req.body.name
          password := hashedPassword
          created_at := env.now 0 }
      let users1 := mapSet users req.body.email user
      let userResponse := omitKey "password" user.toObject
      (⟨201, .user userResponse⟩, users1)

/-- Handler of `POST /auth/register` when no other request is served while it is
suspended: response and the `users` map afterwards. -/
def postRegister (crypto : Crypto) (users : Store User) (env : Env) (req : RegisterRequest) :
    AuthResponse × Store User :=
  match registerCheck users req with
  | some res => (res, users)
  | none => registerResume crypto users env req

/-- Destructured `req.body` of `POST /auth/login` (after `normalizeEmail`). -/
structure LoginBody where
  email : String
  password : PasswordValue
deriving DecidableEq

/-- Request of `POST /auth/login` as the handler sees it. -/
structure LoginRequest where
  errors : List ValidationError
  body : LoginBody
deriving DecidableEq

/-- The `try` block of the `POST /auth/login` handler; it does not change the
`users` map.  `bcrypt.compare` is called only when a user is stored under the
email, and its rejection is thrown into the `catch` block. -/
def loginTry (crypto : Crypto) (users : Store User) (env : Env) (req : LoginRequest) :
    Except String AuthResponse :=
  if !req.errors.isEmpty then
    pure ⟨400, .error "VALIDATION_ERROR" "Invalid input data" .absent⟩
  else
    match mapGet users req.body.email with
    | none => pure ⟨401, .error "INVALID_CREDENTIALS" "Invalid email or password" .absent⟩
    | some user => do
        let passwordMatches ← bcryptCompare crypto req.body.password user.password
        if !passwordMatches then
          pure ⟨401, .error "INVALID_CREDENTIALS" "Invalid email or password" .absent⟩
        else
          let token := generateToken crypto env.now user
          let userResponse := omitKey "password" user.toObject
          pure ⟨200, .login token "Bearer" 86400 userResponse⟩

/-- Handler of `POST /auth/login`. -/
def postLogin (crypto : Crypto) (users : Store User) (env : Env) (req : LoginRequest) :
    AuthResponse :=
  match loginTry crypto users env req with
  | .ok res => res
  | .error _ => ⟨500, .error "INTERNAL_ERROR" "Login failed" .absent⟩

/-! ## frontend: screens/RoutePlanningScreen.js -/

/-- The body that the screen passes to `routeService.optimizeRoute`: a schedule
id, the user location, the departure time and two preferences; it has no
`destinations` field. -/
def clientOptimizeBody (scheduleId : Option String) (userLocation : Coordinates)
    (departureTime : String) : OptimizeBody :=
  { schedule_id := scheduleId
    destinations := none
    origin := userLocation
    departure_time := departureTime
    preferences := some ⟨some false, some false⟩ }

/-- Number of times `num` must be doubled to reach `bound`, counted up to
`fuel`. -/
def scaleUp (num bound : Nat) : Nat → Nat
  | 0 => 0
  | fuel + 1 => if bound ≤ num then 0 else scaleUp (2 * num) bound fuel + 1

/-- Number of times `bound` must be doubled to exceed `num`, counted up to
`fuel`. -/
def scaleDown (num bound : Nat) : Nat → Nat
  | 0 => 0
  | fuel + 1 => if num < bound then 0 else scaleDown num (2 * bound) fuel + 1

/-- The integer nearest to `p / q`, the even one of the two when `p / q` lies
half way between them. -/
def roundHalfEven (p q : Nat) : Nat :=
  let n := p / q
  let r := p % q
  if 2 * r < q then n else if q < 2 * r then n + 1 else if n % 2 = 0 then n else n + 1

/-- `Math.floor(x / y)` for two doubles whose exact values are the natural
numbers `num` and `den > 0`.  The division of IEEE 754 binary64 is correctly
rounded, to nearest with ties to even: the quotient is scaled by a power of two
so that it lies between `2^52` and `2^53`, rounded there to an integer, the
53-bit significand, and scaled back; then the floor is taken.  Exponents are
followed up to 1100 binary places, which covers the range of the doubles. -/
def floorDivDouble (num den : Nat) : Nat :=
  let up := scaleUp num (den * 2 ^ 52) 1100
  let down := scaleDown num (den * 2 ^ 53) 1100
  roundHalfEven (num * 2 ^ up) (den * 2 ^ down) * 2 ^ down / 2 ^ up

/-- The text of a double with the natural number `n` as value, as a template
literal inserts it: the decimal digits of `n` when `n` is below `2^53`; beyond
that the digits are chosen by the shortest round-trip rule of the engine, for
which `largeDigits` stands. -/
def numberToString (largeDigits : Nat → String) (n : Nat) : String :=
  if n < 2 ^ 53 then toString n else largeDigits n

/-- `formatTime(minutes)` for a double whose exact value is the natural number
`minutes`: `/` is the division of doubles, `%` is exact on doubles. -/
def formatTime (largeDigits : Nat → String) (minutes : Nat) : String :=
  let hours := floorDivDouble minutes 60
  let mins := minutes % 60
  if hours > 0 then
    numberToString largeDigits hours ++ "h " ++ numberToString largeDigits mins ++ "m"
  else numberToString largeDigits mins ++ "m"

/-- Region object handed to the map view. -/
structure MapRegion where
  latitude : Rat
  longitude : Rat
  latitudeDelta : Rat
  longitudeDelta : Rat
deriving DecidableEq

/-- `Math.min(x, ...xs)` over exact rationals. -/
def mathMin (x : Rat) (xs : List Rat) : Rat := xs.foldl min x

/-- `Math.max(x, ...xs)` over exact rationals. -/
def mathMax (x : Rat) (xs : List Rat) : Rat := xs.foldl max x

/-- `getMapRegion()` of the screen, over exact rationals; `destinations` is the
route parameter, `none` when it is missing. -/
def getMapRegion (destinations : Option (List Destination)) : MapRegion :=
  match destinations with
  | none => ⟨37.7749, -122.4194, 0.0922, 0.0421⟩
  | some [] => ⟨37.7749, -122.4194, 0.0922, 0.0421⟩
  | some (d :: ds) =>
      let latitudes := ds.map (fun dest => dest.coordinates.lat)
      let longitudes := ds.map (fun dest => dest.coordinates.lon)
      let minLat := mathMin d.coordinates.lat latitudes
      let maxLat := mathMax d.coordinates.lat latitudes
      let minLon := mathMin d.coordinates.lon longitudes
      let maxLon := mathMax d.coordinates.lon longitudes
      { latitude := (minLat + maxLat) / 2
        longitude := (minLon + maxLon) / 2
        latitudeDelta := (maxLat - minLat) * 1.3
        longitudeDelta := (maxLon - minLon) * 1.3 }

end Waywise

/-! ## Concrete requests used as inputs -/

namespace Waywise

/-- Environment whose clock reads `t` throughout the request and whose uuid
generator yields the strings of `ids` in order. -/
def envAt (t : Nat) (ids : List String) : Env := ⟨fun _ => t, fun k => ids.getD k ""⟩

/-- Destination `A`, required, to be reached by 13:00. -/
def destA : Destination :=
  ⟨"a", "A", "1 First St", ⟨0, 0⟩, ⟨"arrive_by", some "13:00"⟩, true⟩

/-- Destination `B`, required, flexible. -/
def destB : Destination :=
  ⟨"b", "B", "2 Second St", ⟨0, 0⟩, ⟨"flexible", none⟩, true⟩

/-- Shape-valid optimize request of user `user-Y` for the single destination `B`. -/
def reqY : OptimizeRequest :=
  ⟨"user-Y", [], ⟨none, some [destB], ⟨0, 0⟩, "1970-01-01T00:00:00.000Z", none⟩⟩

/-- The route that `reqY` creates at time 0 with uuid `route-1`. -/
def routeY : Route :=
  { route_id := "route-1"
    user_id := "user-Y"
    optimized_sequence := [⟨1, destB, 2700000, 4500000, 45, 15⟩]
    summary := ⟨15000, 147, 23, "1970-01-01T00:00:00.000Z", some 2700000⟩
    polyline := "encoded_polyline_string_here"
    created_at := 0
    expires_at := 3600000 }

/-- Shape-valid parse request of user `user-Y`. -/
def parseReqY : ParseRequest :=
  ⟨"user-Y", [], ⟨"dentist at 2pm, grocery store", none⟩⟩

/-- The schedule that `parseReqY` creates at time 1000 with uuids `d-1`, `d-2`,
`schedule-1`. -/
def scheduleY : Schedule :=
  { schedule_id := "schedule-1"
    user_id := "user-Y"
    original_text := "dentist at 2pm, grocery store"
    timezone := "UTC"
    destinations :=
      [ ⟨"d-1", "dentist", "123 Main St, San Francisco, CA", ⟨37.7749, -122.4194⟩,
          ⟨"arrive_by", some "14:00"⟩, true⟩,
        ⟨"d-2", "grocery store", "456 Oak Ave, San Francisco, CA", ⟨37.7849, -122.4094⟩,
          ⟨"flexible", none⟩, true⟩ ]
    ambiguities := []
    created_at := 1000 }

/-- Destination `L`, required, to be reached by 11:00. -/
def destLate : Destination :=
  ⟨"l", "L", "3 Third St", ⟨0, 0⟩, ⟨"arrive_by", some "11:00"⟩, true⟩

/-- Shape-valid optimize request of user `user-Y` for the single destination `L`,
leaving at noon of day 0. -/
def reqLate : OptimizeRequest :=
  ⟨"user-Y", [], ⟨none, some [destLate], ⟨0, 0⟩, "1970-01-01T12:00:00.000Z", none⟩⟩

/-- The route that `reqLate` creates at noon of day 0 with uuid `route-1`. -/
def routeLate : Route :=
  { route_id := "route-1"
    user_id := "user-Y"
    optimized_sequence := [⟨1, destLate, 45900000, 47700000, 45, 15⟩]
    summary := ⟨15000, 147, 23, "1970-01-01T12:00:00.000Z", some 45900000⟩
    polyline := "encoded_polyline_string_here"
    created_at := 43200000
    expires_at := 46800000 }

/-- Clock that reads noon of day 0 (43200000 ms) at every reading. -/
def noon : Nat → Nat := fun _ => 43200000

/-- Clock that advances by one millisecond per reading. -/
def ticking : Nat → Nat := fun k => 1000 + k

/-- Destination `A` of scenario A: required, to be reached by 14:00. -/
def destA14 : Destination :=
  ⟨"a", "A", "1 First St", ⟨0, 0⟩, ⟨"arrive_by", some "14:00"⟩, true⟩

/-- Shape-valid optimize request of `user-Y` that names the stored schedule
`schedule-1` and also carries the explicit list `[B]`. -/
def reqWithSchedule : OptimizeRequest :=
  ⟨"user-Y", [], ⟨some "schedule-1", some [destB], ⟨0, 0⟩, "1970-01-01T00:00:00.000Z", none⟩⟩

/-- Shape-valid optimize request of `user-Y` with an empty destinations array
and a schedule id. -/
def reqEmpty : OptimizeRequest :=
  ⟨"user-Y", [], ⟨some "schedule-1", some [], ⟨0, 0⟩, "1970-01-01T00:00:00.000Z", none⟩⟩

/-- Optimize request of `user-Y` that failed validation (no `origin`). -/
def reqInvalid : OptimizeRequest :=
  ⟨"user-Y", [⟨"Invalid value", "origin", "body"⟩],
    ⟨none, some [destB], ⟨0, 0⟩, "1970-01-01T00:00:00.000Z", none⟩⟩

/-- Clock that reads 5000 for the first three readings of a request and 5001
from the fourth on: the millisecond changes between the reading for
`created_at` and the reading for `expires_at` of a one-stop route. -/
def clockTurning : Nat → Nat := fun k => if k < 3 then 5000 else 5001

/-- Verifier that accepts the token `good`, reports `old` as expired and
rejects everything else as malformed. -/
def demoVerify : String → Except JwtError TokenPayload := fun token =>
  if token = "good" then .ok ⟨"user-Y", "y@example.com", 0, 86400⟩
  else if token = "old" then .error ⟨"TokenExpiredError", "jwt expired"⟩
  else .error ⟨"JsonWebTokenError", "jwt malformed"⟩

/-- Stand-ins for bcrypt and jsonwebtoken: the hash of `p` is `hash(p)`, a
password matches a hash when the hash is the one of the password, and the
token of a payload names its subject. -/
def demoCrypto : Crypto :=
  { hash := fun password => "hash(" ++ password ++ ")"
    compare := fun password hashed => hashed == "hash(" ++ password ++ ")"
    sign := fun payload => "token-for-" ++ payload.sub }

/-- The user record that `registerReqY` creates at time 0 with uuid `user-Y`. -/
def userY : User :=
  ⟨"user-Y", "y@example.com", "Y", "hash(secret1)", 0⟩

/-- Shape-valid registration of `y@example.com`. -/
def registerReqY : RegisterRequest :=
  ⟨[], ⟨"y@example.com", .str "secret1", "Y"⟩⟩

/-- Shape-valid registration of the same email with another password and name. -/
def registerReqAgain : RegisterRequest :=
  ⟨[], ⟨"y@example.com", .str "other-password", "Z"⟩⟩

/-- The user record that `registerReqAgain` creates at time 50 with uuid
`user-Z`. -/
def userZ : User :=
  ⟨"user-Z", "y@example.com", "Z", "hash(other-password)", 50⟩

/-- Shape-valid login of the registered `y@example.com` whose password is the
JSON number 123456. -/
def loginReqNumber : LoginRequest :=
  ⟨[], ⟨"y@example.com", .other "123456"⟩⟩

/-- Shape-valid login of an email that is not registered, with the same JSON
number as password. -/
def loginReqNumberUnknown : LoginRequest :=
  ⟨[], ⟨"nobody@example.com", .other "123456"⟩⟩

/-- Shape-valid login of `y@example.com` with the right password. -/
def loginReqY : LoginRequest :=
  ⟨[], ⟨"y@example.com", .str "secret1"⟩⟩

/-- Shape-valid login of `y@example.com` with a wrong password. -/
def loginReqWrong : LoginRequest :=
  ⟨[], ⟨"y@example.com", .str "guess"⟩⟩

/-- Shape-valid login of an email that is not registered. -/
def loginReqUnknown : LoginRequest :=
  ⟨[], ⟨"nobody@example.com", .str "guess"⟩⟩

/-- Clock whose first reading is 1700000000999 ms (2023-11-14T22:13:20.999Z)
and whose later readings are 1700000001000 ms: the second changes between the
reading for `iat` and the reading for `exp`. -/
def clockNextSecond : Nat → Nat := fun k => if k = 0 then 1700000000999 else 1700000001000

/-- Destination `P` at latitude 1, longitude 10. -/
def destP : Destination :=
  ⟨"p", "P", "4 Fourth St", ⟨1, 10⟩, ⟨"flexible", none⟩, true⟩

/-- Destination `Q` at latitude 3, longitude 4. -/
def destQ : Destination :=
  ⟨"q", "Q", "5 Fifth St", ⟨3, 4⟩, ⟨"flexible", none⟩, true⟩

/-- The optimize request that the screen of `user-Y` sends for `schedule-1`. -/
def reqClient : OptimizeRequest :=
  ⟨"user-Y", [], clientOptimizeBody (some "schedule-1") ⟨37.7649, -122.4294⟩
    "1970-01-01T00:00:02.000Z"⟩

/-- Two requests served by a fresh process: `user-Y` parses a schedule at time
1000, then optimizes a route at time 0 of a second clock. -/
def demoRequests : List Request :=
  [ .postParse (envAt 1000 ["d-1", "d-2", "schedule-1"]) parseReqY,
    .postOptimize (envAt 0 ["route-1"]) reqY ]

end Waywise

/-! ## Theorems -/

namespace Waywise

/-! ### The maps -/

theorem mapGet_mapSet_same {α : Type} (m : Store α) (k : String) (v : α) :
    mapGet (mapSet m k v) k = some v := by
  induction m with
  | nil => simp [mapSet, mapGet]
  | cons e rest ih =>
      obtain ⟨k0, v0⟩ := e
      by_cases h : k0 = k
      · simp [mapSet, mapGet, h]
      · simp [mapSet, mapGet, h, ih]

theorem mapGet_mapSet_other {α : Type} (m : Store α) (k k1 : String) (v : α) (h : k ≠ k1) :
    mapGet (mapSet m k v) k1 = mapGet m k1 := by
  induction m with
  | nil => simp [mapSet, mapGet, h]
  | cons e rest ih =>
      obtain ⟨k0, v0⟩ := e
      by_cases h0 : k0 = k
      · subst h0
        simp [mapSet, mapGet, h]
      · by_cases h1 : k0 = k1
        · subst h1
          simp [mapSet, mapGet, h0]
        · simp [mapSet, mapGet, h0, h1, ih]

/-! ### The two lookups -/

theorem getRoute_absent (routes : Store Route) (env : Env) (id u : String)
    (h : mapGet routes id = none) :
    getRoute routes env id u
      = ⟨404, .error "ROUTE_NOT_FOUND" "Route ID does not exist or has expired" .absent⟩ := by
  simp [getRoute, h]

theorem getRoute_other (routes : Store Route) (env : Env) (id u : String) (r : Route)
    (h : mapGet routes id = some r) (hne : r.user_id ≠ u) :
    getRoute routes env id u
      = ⟨403, .error "FORBIDDEN" "You do not have access to this route" .absent⟩ := by
  simp [getRoute, h, hne]

theorem getRoute_owner (routes : Store Route) (env : Env) (id : String) (r : Route)
    (h : mapGet routes id = some r) :
    getRoute routes env id r.user_id = ⟨200, .routeWithSteps r generateRouteSteps⟩ := by
  simp [getRoute, h]

theorem getSchedule_absent (schedules : Store Schedule) (env : Env) (id u : String)
    (h : mapGet schedules id = none) :
    getSchedule schedules env id u
      = ⟨404, .error "SCHEDULE_NOT_FOUND" "Schedule ID does not exist or has expired"
          .absent⟩ := by
  simp [getSchedule, h]

theorem getSchedule_owner (schedules : Store Schedule) (env : Env) (id : String)
    (s : Schedule) (h : mapGet schedules id = some s) :
    getSchedule schedules env id s.user_id = ⟨200, .schedule s⟩ := by
  simp [getSchedule, h]

/-- The status of `GET /routes/:routeId` is decided by the map and the requester
alone: 403 exactly for a stored route of another user. -/
theorem getRoute_status_403_iff (routes : Store Route) (env : Env) (id u : String) :
    (getRoute routes env id u).status = 403
      ↔ ∃ r, mapGet routes id = some r ∧ r.user_id ≠ u := by
  unfold getRoute
  cases h : mapGet routes id with
  | none => simp
  | some r => by_cases hu : r.user_id = u <;> simp [hu]

/-- The status of `GET /routes/:routeId` is 404 exactly when nothing is stored
under the id. -/
theorem getRoute_status_404_iff (routes : Store Route) (env : Env) (id u : String) :
    (getRoute routes env id u).status = 404 ↔ mapGet routes id = none := by
  unfold getRoute
  cases h : mapGet routes id with
  | none => simp
  | some r => by_cases hu : r.user_id = u <;> simp [hu]

/-! ### Creation -/

/-- The handler of `POST /routes/optimize` either answers with a status other
than 200 and leaves the map as it was, or answers 200 with the created route of
the authenticated user and stores it under its `route_id`. -/
theorem postOptimize_cases (routes : Store Route) (env : Env) (req : OptimizeRequest) :
    ((postOptimize routes env req).1.status ≠ 200 ∧ (postOptimize routes env req).2 = routes)
      ∨ ∃ route, (postOptimize routes env req).1 = ⟨200, .route route⟩
          ∧ route.user_id = req.userId
          ∧ route.route_id = env.uuid 0
          ∧ (postOptimize routes env req).2 = mapSet routes route.route_id route := by
  cases he : req.errors.isEmpty with
  | false => left; simp [postOptimize, optimizeTry, he, pure, Except.pure]
  | true =>
      cases hd : req.body.destinations with
      | none =>
          left
          cases hs : truthy req.body.schedule_id <;>
            simp [postOptimize, optimizeTry, he, hd, hs, pure, Except.pure]
      | some dests =>
          cases dests with
          | nil => left; simp [postOptimize, optimizeTry, he, hd, pure, Except.pure]
          | cons d ds =>
              right
              simp only [postOptimize, optimizeTry, he, hd, pure, Except.pure, bind,
                Except.bind, Option.isNone_some, Bool.and_false, Bool.not_true,
                Bool.false_eq_true, if_false]
              exact ⟨_, rfl, rfl, rfl, rfl⟩

/-- A 200 response of `POST /routes/optimize` carries the created route, which
belongs to the authenticated user and has been stored under its `route_id`. -/
theorem postOptimize_ok (routes routes1 : Store Route) (env : Env) (req : OptimizeRequest)
    (body : Body) (h : postOptimize routes env req = (⟨200, body⟩, routes1)) :
    ∃ route, body = .route route ∧ route.user_id = req.userId
      ∧ route.route_id = env.uuid 0
      ∧ routes1 = mapSet routes route.route_id route := by
  rcases postOptimize_cases routes env req with ⟨hne, _⟩ | ⟨route, hres, hu, hid, hset⟩
  · rw [h] at hne
    exact absurd rfl hne
  · rw [h] at hres hset
    simp only [Response.mk.injEq, true_and] at hres
    exact ⟨route, hres, hu, hid, hset⟩

/-- A 200 response of `POST /schedules/parse` reports a schedule that belongs to
the authenticated user and has been stored under its `schedule_id`. -/
theorem postParse_ok (schedules schedules1 : Store Schedule) (env : Env) (req : ParseRequest)
    (body : Body) (h : postParse schedules env req = (⟨200, body⟩, schedules1)) :
    ∃ s : Schedule,
      body = .parsed ⟨s.schedule_id, s.user_id, s.destinations, s.ambiguities, s.created_at⟩
      ∧ s.user_id = req.userId ∧ s.created_at = env.now 0
      ∧ schedules1 = mapSet schedules s.schedule_id s := by
  unfold postParse parseTry at h
  by_cases he : req.errors.isEmpty
  · simp only [he, Bool.not_true, Bool.false_eq_true, if_false, pure, Except.pure, bind,
      Except.bind, parseAfter, parseScheduleText, Prod.mk.injEq, Response.mk.injEq,
      true_and] at h
    obtain ⟨hb, hr⟩ := h
    exact ⟨{ schedule_id := env.uuid 2
             user_id := req.userId
             original_text := req.body.schedule_text
             timezone := req.body.timezone.getD "UTC"
             destinations :=
               ((parseScheduleText env.uuid req.body.schedule_text).destinations).getD []
             ambiguities := []
             created_at := env.now 0 }, hb.symm, rfl, rfl, hr.symm⟩
  · simp [he, pure, Except.pure] at h

/-! ### Claims C1 to C5: lookups, ownership and expiry -/

/-- Claim C1, evaluated where the handler departs from it: user `user-Y` creates
a route at time 0, so its `expires_at` is 3600000; at request time 3600000 the
route is expired and `user-X` is not its owner, and `GET /routes/route-1` by
`user-X` answers 403 FORBIDDEN where the claim requires 404 ROUTE_NOT_FOUND. -/
theorem C1_expired_route_answers_403_to_other_user :
    postOptimize [] (envAt 0 ["route-1"]) reqY = (⟨200, .route routeY⟩, [("route-1", routeY)])
      ∧ mapGet [("route-1", routeY)] "route-1" = some routeY
      ∧ routeY.expiredAt ((envAt 3600000 []).now 0)
      ∧ routeY.user_id ≠ "user-X"
      ∧ getRoute [("route-1", routeY)] (envAt 3600000 []) "route-1" "user-X"
          = ⟨403, .error "FORBIDDEN" "You do not have access to this route" .absent⟩ := by
  refine ⟨by decide, by decide, by decide, by decide, by decide⟩

/-- Claim C2, as the handler behaves: a route created by `POST /routes/optimize`
is returned to its owner with status 200 by `GET /routes/:routeId` at every
later request, whatever the clock reads then; the times at or after
`expires_at` are among them, and the claim requires 404 there. -/
theorem C2_owner_reads_route_whatever_the_clock (routes routes1 : Store Route)
    (env later : Env) (req : OptimizeRequest) (route : Route)
    (h : postOptimize routes env req = (⟨200, .route route⟩, routes1)) :
    getRoute routes1 later route.route_id req.userId
      = ⟨200, .routeWithSteps route generateRouteSteps⟩ := by
  obtain ⟨r, hb, hu, _, hr⟩ := postOptimize_ok routes routes1 env req _ h
  cases hb
  rw [← hu]
  exact getRoute_owner routes1 later _ _ (by rw [hr]; exact mapGet_mapSet_same _ _ _)

/-- Input for C2: the route created at time 0 expires at 3600000 and is still
returned to its owner at request time 3600000. -/
theorem C2_owner_reads_route_whatever_the_clock_witness :
    routeY.expiredAt ((envAt 3600000 []).now 0)
      ∧ getRoute [("route-1", routeY)] (envAt 3600000 []) routeY.route_id reqY.userId
          = ⟨200, .routeWithSteps routeY generateRouteSteps⟩ :=
  ⟨by decide,
   C2_owner_reads_route_whatever_the_clock [] [("route-1", routeY)] (envAt 0 ["route-1"])
     (envAt 3600000 []) reqY routeY (by decide)⟩

/-- Claim C3, as the handler behaves: a schedule created by
`POST /schedules/parse` carries no expiry and is returned to its owner with
status 200 by `GET /schedules/:scheduleId` at every later request, whatever the
clock reads then; the times more than one hour after `created_at` are among
them, and the claim requires 404 there. -/
theorem C3_owner_reads_schedule_whatever_the_clock (schedules schedules1 : Store Schedule)
    (env later : Env) (req : ParseRequest) (p : ParseResponse)
    (h : postParse schedules env req = (⟨200, .parsed p⟩, schedules1)) :
    ∃ s : Schedule, s.schedule_id = p.schedule_id ∧ s.created_at = p.created_at
      ∧ s.destinations = p.destinations
      ∧ getSchedule schedules1 later p.schedule_id req.userId = ⟨200, .schedule s⟩ := by
  obtain ⟨s, hb, hu, _, hr⟩ := postParse_ok schedules schedules1 env req _ h
  cases hb
  refine ⟨s, rfl, rfl, rfl, ?_⟩
  rw [← hu]
  exact getSchedule_owner schedules1 later _ _ (by rw [hr]; exact mapGet_mapSet_same _ _ _)

/-- Input for C3: the schedule created at time 1000 is returned to its owner at
request time 1000 + 3600000 + 1, more than one hour after its creation. -/
theorem C3_owner_reads_schedule_whatever_the_clock_witness :
    scheduleY.created_at + scheduleTtlMs < (envAt 3601001 []).now 0
      ∧ ∃ s : Schedule, s.schedule_id = "schedule-1" ∧ s.created_at = 1000
          ∧ s.destinations = scheduleY.destinations
          ∧ getSchedule [("schedule-1", scheduleY)] (envAt 3601001 []) "schedule-1" "user-Y"
              = ⟨200, .schedule s⟩ :=
  ⟨by decide,
   C3_owner_reads_schedule_whatever_the_clock [] [("schedule-1", scheduleY)]
     (envAt 1000 ["d-1", "d-2", "schedule-1"]) (envAt 3601001 []) parseReqY
     ⟨"schedule-1", "user-Y", scheduleY.destinations, [], 1000⟩ rfl⟩

/-- Claim C4: when the map holds under `id` a route whose `user_id` is `Y`, a
request of any other user `X` for `GET /routes/id` is answered with status 403
and the error body `FORBIDDEN`, which is the same for every stored route and
carries none of its fields. -/
theorem C4_other_user_gets_forbidden (routes : Store Route) (env : Env) (id X Y : String)
    (r : Route) (hstored : mapGet routes id = some r) (howner : r.user_id = Y)
    (hne : X ≠ Y) :
    getRoute routes env id X
      = ⟨403, .error "FORBIDDEN" "You do not have access to this route" .absent⟩ :=
  getRoute_other routes env id X r hstored (by rw [howner]; exact fun e => hne e.symm)

/-- Input for C4: `user-X` asks for the route of `user-Y`. -/
theorem C4_other_user_gets_forbidden_witness :
    mapGet [("route-1", routeY)] "route-1" = some routeY ∧ routeY.user_id = "user-Y"
      ∧ "user-X" ≠ "user-Y"
      ∧ getRoute [("route-1", routeY)] (envAt 5 []) "route-1" "user-X"
          = ⟨403, .error "FORBIDDEN" "You do not have access to this route" .absent⟩ :=
  ⟨by decide, rfl, by decide,
   C4_other_user_gets_forbidden [("route-1", routeY)] (envAt 5 []) "route-1" "user-X" "user-Y"
     routeY (by decide) rfl (by decide)⟩

/-- Claim C5: for an id under which the map holds nothing, `GET /routes/id`
answers 404 ROUTE_NOT_FOUND and `GET /schedules/id` answers 404
SCHEDULE_NOT_FOUND for every requester; the ownership test is not reached, so
the answer is never 403. -/
theorem C5_absent_id_is_not_found (routes : Store Route) (schedules : Store Schedule)
    (env : Env) (id u : String) :
    (mapGet routes id = none →
        getRoute routes env id u
          = ⟨404, .error "ROUTE_NOT_FOUND" "Route ID does not exist or has expired" .absent⟩)
      ∧ (mapGet schedules id = none →
        getSchedule schedules env id u
          = ⟨404, .error "SCHEDULE_NOT_FOUND" "Schedule ID does not exist or has expired"
              .absent⟩) :=
  ⟨getRoute_absent routes env id u, getSchedule_absent schedules env id u⟩

/-- Input for C5: maps that hold other entries of another user, and an id that
is stored in neither. -/
theorem C5_absent_id_is_not_found_witness :
    mapGet [("route-1", routeY)] "nowhere" = none
      ∧ mapGet [("schedule-1", scheduleY)] "nowhere" = none
      ∧ getRoute [("route-1", routeY)] (envAt 5 []) "nowhere" "user-X"
          = ⟨404, .error "ROUTE_NOT_FOUND" "Route ID does not exist or has expired" .absent⟩
      ∧ getSchedule [("schedule-1", scheduleY)] (envAt 5 []) "nowhere" "user-X"
          = ⟨404, .error "SCHEDULE_NOT_FOUND" "Schedule ID does not exist or has expired"
              .absent⟩ :=
  ⟨by decide, by decide,
   (C5_absent_id_is_not_found [("route-1", routeY)] [("schedule-1", scheduleY)] (envAt 5 [])
      "nowhere" "user-X").1 (by decide),
   (C5_absent_id_is_not_found [("route-1", routeY)] [("schedule-1", scheduleY)] (envAt 5 [])
      "nowhere" "user-X").2 (by decide)⟩

/-! ### Claim C6: visibility over request sequences -/

theorem run_append (s : State) (reqs : List Request) (r : Request) :
    run s (reqs ++ [r]) = (step (run s reqs) r).2 := by
  simp [run, List.foldl_append]

/-- The handler of `POST /schedules/parse` either leaves the map as it was or
answers 200 and stores the created schedule of the authenticated user. -/
theorem postParse_cases (schedules : Store Schedule) (env : Env) (req : ParseRequest) :
    (postParse schedules env req).2 = schedules
      ∨ ∃ s : Schedule, (postParse schedules env req).1
            = ⟨200, .parsed ⟨s.schedule_id, s.user_id, s.destinations, s.ambiguities,
                s.created_at⟩⟩
          ∧ s.user_id = req.userId
          ∧ (postParse schedules env req).2 = mapSet schedules s.schedule_id s := by
  by_cases he : req.errors.isEmpty
  · right
    have h : postParse schedules env req
        = ((postParse schedules env req).1, (postParse schedules env req).2) := rfl
    have h200 : (postParse schedules env req).1.status = 200 := by
      simp [postParse, parseTry, he, pure, Except.pure, bind, Except.bind, parseAfter,
        parseScheduleText]
    have hres : (postParse schedules env req).1
        = ⟨200, (postParse schedules env req).1.body⟩ := by
      rw [← h200]
    rw [hres] at h
    obtain ⟨s, hb, hu, _, hr⟩ := postParse_ok schedules _ env req _ h
    exact ⟨s, by rw [hres, hb], hu, hr⟩
  · left; simp [postParse, parseTry, he, pure, Except.pure]

theorem routeCreatedBy_append (reqs : List Request) (x : Request) (u : String) (route : Route)
    (h : routeCreatedBy reqs u route) : routeCreatedBy (reqs ++ [x]) u route := by
  obtain ⟨pre, env, req, post, hreqs, hu, hres, hst⟩ := h
  exact ⟨pre, env, req, post ++ [x], by simp [hreqs], hu, hres, hst⟩

theorem scheduleCreatedBy_append (reqs : List Request) (x : Request) (u : String)
    (s : Schedule) (h : scheduleCreatedBy reqs u s) : scheduleCreatedBy (reqs ++ [x]) u s := by
  obtain ⟨pre, env, req, post, hreqs, hu, hres, hst⟩ := h
  exact ⟨pre, env, req, post ++ [x], by simp [hreqs], hu, hres, hst⟩

/-- Every route held by the map after a request sequence was created in that
sequence by an optimize request of the user recorded in its `user_id`. -/
theorem stored_route_created (reqs : List Request) :
    ∀ k r, mapGet (run State.empty reqs).routes k = some r →
      routeCreatedBy reqs r.user_id r := by
  induction reqs using List.reverseRecOn with
  | nil => intro k r h; simp [run, State.empty, mapGet] at h
  | append_singleton reqs x ih =>
      intro k r h
      rw [run_append] at h
      cases x with
      | getRoute env routeId userId => exact routeCreatedBy_append _ _ _ _ (ih k r h)
      | getSchedule env sid userId => exact routeCreatedBy_append _ _ _ _ (ih k r h)
      | postParse env req =>
          exact routeCreatedBy_append _ _ _ _ (ih k r (by simpa [step] using h))
      | postOptimize env req =>
          have hstep : (step (run State.empty reqs) (.postOptimize env req)).2.routes
              = (postOptimize (run State.empty reqs).routes env req).2 := rfl
          have hres : (step (run State.empty reqs) (.postOptimize env req)).1
              = (postOptimize (run State.empty reqs).routes env req).1 := rfl
          rw [hstep] at h
          rcases postOptimize_cases (run State.empty reqs).routes env req with hsame | hnew
          · rw [hsame.2] at h
            exact routeCreatedBy_append _ _ _ _ (ih k r h)
          · obtain ⟨route, h200, hu, _, hset⟩ := hnew
            rw [hset] at h
            by_cases hk : route.route_id = k
            · subst hk
              rw [mapGet_mapSet_same] at h
              cases h
              refine ⟨reqs, env, req, [], rfl, hu.symm, ?_, ?_⟩
              · rw [hres, h200]
              · rw [hstep, hset, mapGet_mapSet_same]
            · rw [mapGet_mapSet_other _ _ _ _ hk] at h
              exact routeCreatedBy_append _ _ _ _ (ih k r h)

/-- Every schedule held by the map after a request sequence was created in that
sequence by a parse request of the user recorded in its `user_id`. -/
theorem stored_schedule_created (reqs : List Request) :
    ∀ k s, mapGet (run State.empty reqs).schedules k = some s →
      scheduleCreatedBy reqs s.user_id s := by
  induction reqs using List.reverseRecOn with
  | nil => intro k s h; simp [run, State.empty, mapGet] at h
  | append_singleton reqs x ih =>
      intro k s h
      rw [run_append] at h
      cases x with
      | getRoute env routeId userId => exact scheduleCreatedBy_append _ _ _ _ (ih k s h)
      | getSchedule env sid userId => exact scheduleCreatedBy_append _ _ _ _ (ih k s h)
      | postOptimize env req =>
          exact scheduleCreatedBy_append _ _ _ _ (ih k s (by simpa [step] using h))
      | postParse env req =>
          have hstep : (step (run State.empty reqs) (.postParse env req)).2.schedules
              = (postParse (run State.empty reqs).schedules env req).2 := rfl
          have hres : (step (run State.empty reqs) (.postParse env req)).1
              = (postParse (run State.empty reqs).schedules env req).1 := rfl
          rw [hstep] at h
          rcases postParse_cases (run State.empty reqs).schedules env req with hsame | hnew
          · rw [hsame] at h
            exact scheduleCreatedBy_append _ _ _ _ (ih k s h)
          · obtain ⟨sch, h200, hu, hset⟩ := hnew
            rw [hset] at h
            by_cases hk : sch.schedule_id = k
            · subst hk
              rw [mapGet_mapSet_same] at h
              cases h
              refine ⟨reqs, env, req, [], rfl, hu.symm, ?_, ?_⟩
              · rw [hres, h200]
              · rw [hstep, hset, mapGet_mapSet_same]
            · rw [mapGet_mapSet_other _ _ _ _ hk] at h
              exact scheduleCreatedBy_append _ _ _ _ (ih k s h)

/-- Claim C6: after any sequence of requests served from empty maps, whenever
`GET /routes/id` (resp. `GET /schedules/id`) answers 200 to requester `u`, the
body is the entity stored under `id`, its `user_id` is `u`, and it was created
in the sequence by an optimize (resp. parse) request authenticated as `u`. -/
theorem C6_visible_only_to_creator (reqs : List Request) (env : Env) (id u : String) :
    ((getRoute (run State.empty reqs).routes env id u).status = 200 →
        ∃ route, (getRoute (run State.empty reqs).routes env id u).body
              = .routeWithSteps route generateRouteSteps
            ∧ mapGet (run State.empty reqs).routes id = some route
            ∧ route.user_id = u ∧ routeCreatedBy reqs u route)
      ∧ ((getSchedule (run State.empty reqs).schedules env id u).status = 200 →
        ∃ s, (getSchedule (run State.empty reqs).schedules env id u).body = .schedule s
            ∧ mapGet (run State.empty reqs).schedules id = some s
            ∧ s.user_id = u ∧ scheduleCreatedBy reqs u s) := by
  constructor
  · intro h
    unfold getRoute at h ⊢
    cases hg : mapGet (run State.empty reqs).routes id with
    | none => simp [hg] at h
    | some route =>
        by_cases hu : route.user_id = u
        · refine ⟨route, by simp [hu], rfl, hu, ?_⟩
          rw [← hu]
          exact stored_route_created reqs id route hg
        · simp [hg, hu] at h
  · intro h
    unfold getSchedule at h ⊢
    cases hg : mapGet (run State.empty reqs).schedules id with
    | none => simp [hg] at h
    | some s =>
        by_cases hu : s.user_id = u
        · refine ⟨s, by simp [hu], rfl, hu, ?_⟩
          rw [← hu]
          exact stored_schedule_created reqs id s hg
        · simp [hg, hu] at h

/-- Input for C6: after `user-Y` has parsed a schedule and optimized a route,
both lookups answer 200 to `user-Y`. -/
theorem C6_visible_only_to_creator_witness :
    (getRoute (run State.empty demoRequests).routes (envAt 9 []) "route-1" "user-Y").status
        = 200
      ∧ (∃ route, (getRoute (run State.empty demoRequests).routes (envAt 9 []) "route-1"
              "user-Y").body = .routeWithSteps route generateRouteSteps
            ∧ mapGet (run State.empty demoRequests).routes "route-1" = some route
            ∧ route.user_id = "user-Y" ∧ routeCreatedBy demoRequests "user-Y" route) :=
  ⟨by decide,
   (C6_visible_only_to_creator demoRequests (envAt 9 []) "route-1" "user-Y").1 (by decide)⟩

/-! ### Claims C7 to C10: the sequence computed by `optimizeRoute` -/

theorem optimized_sequence_length (now : Nat → Nat) (ds : List Destination) (o : Coordinates)
    (t : String) (p : Option Preferences) :
    (optimizeRoute now ds o t p).optimized_sequence.length = ds.length := by
  simp [optimizeRoute]

/-- Position `i` of the computed sequence holds the `i`-th input destination
with the timetable entry of position `i`. -/
theorem optimized_sequence_getElem? (now : Nat → Nat) (ds : List Destination)
    (o : Coordinates) (t : String) (p : Option Preferences) (i : Nat) :
    (optimizeRoute now ds o t p).optimized_sequence[i]? = (ds[i]?).map (stopAt now i) := by
  simp only [optimizeRoute, List.getElem?_zipWith]
  by_cases h : i < ds.length
  · rw [List.getElem?_range h, List.getElem?_eq_getElem h]
    rfl
  · have h1 : ds[i]? = none := List.getElem?_eq_none (Nat.le_of_not_lt h)
    rw [h1]
    cases (List.range ds.length)[i]? <;> rfl

theorem mem_optimized_sequence (now : Nat → Nat) (ds : List Destination) (o : Coordinates)
    (t : String) (p : Option Preferences) (s : Stop) :
    s ∈ (optimizeRoute now ds o t p).optimized_sequence
      ↔ ∃ i d, ds[i]? = some d ∧ s = stopAt now i d := by
  rw [List.mem_iff_getElem?]
  constructor
  · rintro ⟨i, hi⟩
    rw [optimized_sequence_getElem?] at hi
    cases hd : ds[i]? with
    | none => simp [hd] at hi
    | some d =>
        rw [hd] at hi
        simp only [Option.map_some', Option.some.injEq] at hi
        exact ⟨i, d, hd, hi.symm⟩
  · rintro ⟨i, d, hd, rfl⟩
    exact ⟨i, by rw [optimized_sequence_getElem?, hd]; rfl⟩

theorem stopDestinations_optimized (now : Nat → Nat) (ds : List Destination) (o : Coordinates)
    (t : String) (p : Option Preferences) :
    stopDestinations (optimizeRoute now ds o t p).optimized_sequence = ds := by
  apply List.ext_getElem?
  intro i
  simp only [stopDestinations, List.getElem?_map, optimized_sequence_getElem?]
  cases ds[i]? <;> rfl

/-- Claim C7: the destinations carried by `optimized_sequence` are the input
list itself, in input order; so the sequence has the length of the input, its
destinations are a permutation of the input, and every destination occurs in
it as often as in the input (once, when the input lists it once).  This holds
for every input list, the non-empty ones among them. -/
theorem C7_sequence_is_permutation_of_input (now : Nat → Nat) (ds : List Destination)
    (o : Coordinates) (t : String) (p : Option Preferences) :
    (optimizeRoute now ds o t p).optimized_sequence.length = ds.length
      ∧ (stopDestinations (optimizeRoute now ds o t p).optimized_sequence).Perm ds
      ∧ ∀ d, (stopDestinations (optimizeRoute now ds o t p).optimized_sequence).count d
          = ds.count d := by
  refine ⟨optimized_sequence_length now ds o t p, ?_, ?_⟩
  · rw [stopDestinations_optimized]
  · intro d
    rw [stopDestinations_optimized]

/-- Claim C8 fails as stated: at noon, for the input `[B, A]` with `A` to be
reached by 13:00, the ordering `[A, B]` is feasible under the timetable of
`optimizeRoute` (`A` reached at 12:45), yet the returned route keeps the input
order and reaches `A` at 13:30 (48600000 ms), after its deadline. -/
theorem C8_feasible_input_gets_violating_route :
    (∃ order : List Destination, order.Perm [destB, destA]
        ∧ feasibleOrder 0 noon order ⟨0, 0⟩ "1970-01-01T12:00:00.000Z" none = true)
      ∧ (optimizeRoute noon [destB, destA] ⟨0, 0⟩ "1970-01-01T12:00:00.000Z"
          none).optimized_sequence
          = [⟨1, destB, 45900000, 47700000, 45, 15⟩, ⟨2, destA, 48600000, 50400000, 45, 15⟩]
      ∧ parseHHMM "13:00" = some 780
      ∧ routeMeets 0 (optimizeRoute noon [destB, destA] ⟨0, 0⟩ "1970-01-01T12:00:00.000Z"
          none).optimized_sequence = false :=
  ⟨⟨[destA, destB], List.Perm.swap destB destA [], by decide⟩, by decide, by decide, by decide⟩

/-- Claim C8 as amended: `optimizeRoute` does not consult the time constraints
and keeps the input order; the returned route meets every `arrive_by` and
`depart_after` constraint exactly when the input order itself does under the
fixed timetable (destination `i`, 0-based, reached at reading `2 i` plus
`45 (i + 1)` minutes and left 30 minutes after reading `2 i + 1` plus the same
offset). -/
theorem C8_route_meets_constraints_iff_input_order_does (dayStart : Nat) (now : Nat → Nat)
    (ds : List Destination) (o : Coordinates) (t : String) (p : Option Preferences) :
    routeMeets dayStart (optimizeRoute now ds o t p).optimized_sequence = true
      ↔ ∀ i d, ds[i]? = some d →
          constraintMet dayStart d.time_constraint
            (now (2 * i) + (i + 1) * 45 * 60000)
            (now (2 * i + 1) + (i + 1) * 45 * 60000 + 30 * 60000) = true := by
  rw [routeMeets, List.all_eq_true]
  constructor
  · intro h i d hd
    exact h (stopAt now i d) ((mem_optimized_sequence now ds o t p _).2 ⟨i, d, hd, rfl⟩)
  · intro h s hs
    obtain ⟨i, d, hd, rfl⟩ := (mem_optimized_sequence now ds o t p s).1 hs
    exact h i d hd

/-- Input for the amended C8: the input order `[A, B]` meets its constraints at
noon, and so does the returned route. -/
theorem C8_route_meets_constraints_iff_input_order_does_witness :
    routeMeets 0 (optimizeRoute noon [destA, destB] ⟨0, 0⟩ "1970-01-01T12:00:00.000Z"
      none).optimized_sequence = true :=
  (C8_route_meets_constraints_iff_input_order_does 0 noon [destA, destB] ⟨0, 0⟩
    "1970-01-01T12:00:00.000Z" none).2
    (by
      intro i d hd
      match i, hd with
      | 0, hd => cases hd; decide
      | 1, hd => cases hd; decide
      | n + 2, hd => simp at hd)

/-- The `try` block of `POST /routes/optimize` never throws. -/
theorem optimizeTry_ok (routes : Store Route) (env : Env) (req : OptimizeRequest) :
    ∃ result, optimizeTry routes env req = .ok result := by
  unfold optimizeTry
  split
  · exact ⟨_, rfl⟩
  · dsimp only
    split
    · exact ⟨_, rfl⟩
    · split <;> exact ⟨_, rfl⟩

/-- Claim C9 fails as stated: at noon the only destination `L` is required and
must be reached by 11:00, a deadline already past, so no ordering meets it; the
handler still answers 200 with a route and stores it. -/
theorem C9_infeasible_request_is_answered_200 :
    parseHHMM "11:00" = some 660
      ∧ 0 + 660 * 60000 < noon 0
      ∧ (∀ order : List Destination, order.Perm [destLate] →
          requiredMeet 0 (optimizeRoute noon order ⟨0, 0⟩ "1970-01-01T12:00:00.000Z"
            none).optimized_sequence = false)
      ∧ postOptimize [] (envAt 43200000 ["route-1"]) reqLate
          = (⟨200, .route routeLate⟩, [("route-1", routeLate)]) := by
  refine ⟨by decide, by decide, ?_, by decide⟩
  intro order hperm
  rw [List.perm_singleton.1 hperm]
  decide

/-- Claim C9 as amended: the handler makes no feasibility check.  A shape-valid
request with a non-empty destination list is answered 200 with a route over
exactly those destinations, which is stored, whatever the time constraints
are; no response of the handler has code INFEASIBLE_SCHEDULE, because the
`try` block never throws; 400 INFEASIBLE_SCHEDULE with the error message as
details is what the `catch` block yields for a message containing
`infeasible`. -/
theorem C9_no_feasibility_check (routes : Store Route) (env : Env) (req : OptimizeRequest) :
    (∀ d ds, req.errors = [] → req.body.destinations = some (d :: ds) →
        ∃ route, postOptimize routes env req
              = (⟨200, .route route⟩, mapSet routes route.route_id route)
            ∧ stopDestinations route.optimized_sequence = d :: ds)
      ∧ (∀ code message details,
          (postOptimize routes env req).1.body = .error code message details →
            code ≠ "INFEASIBLE_SCHEDULE")
      ∧ (∀ message, includes message "infeasible" = true →
          optimizeCatch message
            = ⟨400, .error "INFEASIBLE_SCHEDULE" "Cannot satisfy all time constraints"
                (.text message)⟩) := by
  refine ⟨?_, ?_, ?_⟩
  · intro d ds he hd
    refine ⟨{ route_id := env.uuid 0
              user_id := req.userId
              optimized_sequence := (optimizeRoute env.now (d :: ds) req.body.origin
                req.body.departure_time req.body.preferences).optimized_sequence
              summary := (optimizeRoute env.now (d :: ds) req.body.origin
                req.body.departure_time req.body.preferences).summary
              polyline := (optimizeRoute env.now (d :: ds) req.body.origin
                req.body.departure_time req.body.preferences).polyline
              created_at := env.now (2 * (d :: ds).length)
              expires_at := env.now (2 * (d :: ds).length + 1) + 60 * 60 * 1000 }, ?_, ?_⟩
    · simp only [postOptimize, optimizeTry, he, hd, pure, Except.pure, bind, Except.bind,
        Option.isNone_some, Bool.and_false, List.isEmpty_nil, Bool.not_true,
        Bool.false_eq_true, if_false]
    · exact stopDestinations_optimized env.now (d :: ds) req.body.origin
        req.body.departure_time req.body.preferences
  · intro code message details h
    cases he : req.errors.isEmpty with
    | false =>
        simp [postOptimize, optimizeTry, he, pure, Except.pure] at h
        rw [← h.1]; decide
    | true =>
        cases hd : req.body.destinations with
        | none =>
            cases hs : truthy req.body.schedule_id <;>
              simp [postOptimize, optimizeTry, he, hd, hs, pure, Except.pure] at h <;>
              (rw [← h.1]; decide)
        | some dests =>
            cases dests with
            | nil =>
                simp [postOptimize, optimizeTry, he, hd, pure, Except.pure] at h
                rw [← h.1]; decide
            | cons d ds =>
                simp [postOptimize, optimizeTry, he, hd, pure, Except.pure, bind,
                  Except.bind] at h
  · intro message h
    simp [optimizeCatch, h]

/-- Input for the amended C9: the request with the past deadline is shape-valid
and non-empty, and is answered 200 with the stored route. -/
theorem C9_no_feasibility_check_witness :
    reqLate.errors = [] ∧ reqLate.body.destinations = some [destLate]
      ∧ ∃ route, postOptimize [] (envAt 43200000 ["route-1"]) reqLate
            = (⟨200, .route route⟩, mapSet [] route.route_id route)
          ∧ stopDestinations route.optimized_sequence = [destLate] :=
  ⟨rfl, rfl,
   (C9_no_feasibility_check [] (envAt 43200000 ["route-1"]) reqLate).1 destLate [] rfl rfl⟩

/-- Claim C10: with a clock that never goes backwards, `arrival_time` is
non-decreasing in `order` over the stops of the computed sequence. -/
theorem C10_arrival_nondecreasing_in_order (now : Nat → Nat) (hclock : Monotone now)
    (ds : List Destination) (o : Coordinates) (t : String) (p : Option Preferences) :
    ∀ s ∈ (optimizeRoute now ds o t p).optimized_sequence,
      ∀ s1 ∈ (optimizeRoute now ds o t p).optimized_sequence,
        s.order < s1.order → s.arrival_time ≤ s1.arrival_time := by
  intro s hs s1 hs1 hlt
  obtain ⟨i, d, _, rfl⟩ := (mem_optimized_sequence now ds o t p s).1 hs
  obtain ⟨j, e, _, rfl⟩ := (mem_optimized_sequence now ds o t p s1).1 hs1
  simp only [stopAt] at hlt ⊢
  have hij : 2 * i ≤ 2 * j := by omega
  have hnow : now (2 * i) ≤ now (2 * j) := hclock hij
  omega

/-- Input for C10: a clock advancing one millisecond per reading, and the two
stops computed for `[B, A]`. -/
theorem C10_arrival_nondecreasing_in_order_witness :
    Monotone ticking
      ∧ (stopAt ticking 0 destB).order < (stopAt ticking 1 destA).order
      ∧ (stopAt ticking 0 destB).arrival_time ≤ (stopAt ticking 1 destA).arrival_time :=
  ⟨fun _ _ h => Nat.add_le_add_left h 1000, by decide,
   C10_arrival_nondecreasing_in_order ticking (fun _ _ h => Nat.add_le_add_left h 1000)
     [destB, destA] ⟨0, 0⟩ "1970-01-01T00:00:00.000Z" none
     (stopAt ticking 0 destB) (by decide) (stopAt ticking 1 destA) (by decide) (by decide)⟩

/-! ### Claims C11 to C15: scenario A and the optimize handler -/

/-- A shape-valid request with a non-empty destination list is answered 200
with the route assembled from the result of `optimizeRoute` and two further
clock readings, and that route is stored under its `route_id`. -/
theorem postOptimize_nonempty (routes : Store Route) (env : Env) (req : OptimizeRequest)
    (d : Destination) (ds : List Destination) (he : req.errors = [])
    (hd : req.body.destinations = some (d :: ds)) :
    ∃ route, postOptimize routes env req
          = (⟨200, .route route⟩, mapSet routes route.route_id route)
        ∧ route.route_id = env.uuid 0 ∧ route.user_id = req.userId
        ∧ route.optimized_sequence = (optimizeRoute env.now (d :: ds) req.body.origin
            req.body.departure_time req.body.preferences).optimized_sequence
        ∧ route.summary = (optimizeRoute env.now (d :: ds) req.body.origin
            req.body.departure_time req.body.preferences).summary
        ∧ route.created_at = env.now (2 * (d :: ds).length)
        ∧ route.expires_at = env.now (2 * (d :: ds).length + 1) + 60 * 60 * 1000 := by
  refine ⟨{ route_id := env.uuid 0
            user_id := req.userId
            optimized_sequence := (optimizeRoute env.now (d :: ds) req.body.origin
              req.body.departure_time req.body.preferences).optimized_sequence
            summary := (optimizeRoute env.now (d :: ds) req.body.origin
              req.body.departure_time req.body.preferences).summary
            polyline := (optimizeRoute env.now (d :: ds) req.body.origin
              req.body.departure_time req.body.preferences).polyline
            created_at := env.now (2 * (d :: ds).length)
            expires_at := env.now (2 * (d :: ds).length + 1) + 60 * 60 * 1000 },
          ?_, rfl, rfl, rfl, rfl, rfl, rfl⟩
  simp only [postOptimize, optimizeTry, he, hd, pure, Except.pure, bind, Except.bind,
    Option.isNone_some, Bool.and_false, List.isEmpty_nil, Bool.not_true,
    Bool.false_eq_true, if_false]

/-- Claim C11: in scenario A the clock reads 12:00 (to the minute) of the day
that starts at `dayStart`; `optimizeRoute` returns a route, and in it every stop
whose destination is `A` has `arrival_time` before 14:00 of that day, for the
input order `[A, B]` (12:45) and for the input order `[B, A]` (13:30). -/
theorem C11_scenario_A_reaches_A_before_deadline (dayStart : Nat) (now : Nat → Nat)
    (hnow : ∀ k, dayStart + 43200000 ≤ now k ∧ now k < dayStart + 43200000 + 60000)
    (o : Coordinates) (t : String) (p : Option Preferences) :
    (∀ s ∈ (optimizeRoute now [destA14, destB] o t p).optimized_sequence,
        s.destination = destA14 → s.arrival_time < dayStart + 840 * 60000)
      ∧ (∀ s ∈ (optimizeRoute now [destB, destA14] o t p).optimized_sequence,
        s.destination = destA14 → s.arrival_time < dayStart + 840 * 60000)
      ∧ stopDestinations (optimizeRoute now [destA14, destB] o t p).optimized_sequence
          = [destA14, destB]
      ∧ stopDestinations (optimizeRoute now [destB, destA14] o t p).optimized_sequence
          = [destB, destA14] := by
  have hne : destB ≠ destA14 := by decide
  refine ⟨?_, ?_, stopDestinations_optimized _ _ _ _ _, stopDestinations_optimized _ _ _ _ _⟩
  · intro s hs hd
    obtain ⟨i, d, hi, rfl⟩ := (mem_optimized_sequence now _ o t p s).1 hs
    match i, hi with
    | 0, hi =>
        have h0 := (hnow (2 * 0)).2
        simp only [stopAt]
        omega
    | 1, hi =>
        simp only [List.getElem?_cons_succ, List.getElem?_cons_zero, Option.some.injEq] at hi
        subst hi
        exact absurd hd hne
    | n + 2, hi => simp at hi
  · intro s hs hd
    obtain ⟨i, d, hi, rfl⟩ := (mem_optimized_sequence now _ o t p s).1 hs
    match i, hi with
    | 0, hi =>
        simp only [List.getElem?_cons_zero, Option.some.injEq] at hi
        subst hi
        exact absurd hd hne
    | 1, hi =>
        have h2 := (hnow (2 * 1)).2
        simp only [stopAt]
        omega
    | n + 2, hi => simp at hi

/-- Input for C11: the clock reads exactly noon of day 0; for the input order
`[B, A]` the stop of `A` is the second one and arrives at 13:30. -/
theorem C11_scenario_A_reaches_A_before_deadline_witness :
    (∀ k, 0 + 43200000 ≤ noon k ∧ noon k < 0 + 43200000 + 60000)
      ∧ parseHHMM "14:00" = some 840
      ∧ (stopAt noon 1 destA14).arrival_time = 48600000
      ∧ (stopAt noon 1 destA14).arrival_time < 0 + 840 * 60000 :=
  ⟨fun _ => by simp [noon], by decide, by decide,
   (C11_scenario_A_reaches_A_before_deadline 0 noon (fun _ => by simp [noon]) ⟨0, 0⟩
      "1970-01-01T12:00:00.000Z" none).2.1 (stopAt noon 1 destA14) (by decide) rfl⟩

/-- Claim C12 fails as stated: the schedule `schedule-1` is stored with the
destinations dentist and grocery store, the request names it and carries the
different explicit list `[B]`, and the route is built from `[B]`. -/
theorem C12_explicit_list_used_although_schedule_resolves :
    mapGet (run State.empty demoRequests).schedules "schedule-1" = some scheduleY
      ∧ reqWithSchedule.body.schedule_id = some "schedule-1"
      ∧ reqWithSchedule.body.destinations = some [destB]
      ∧ scheduleY.destinations ≠ [destB]
      ∧ ∃ route,
          (step (run State.empty demoRequests)
              (.postOptimize (envAt 2000 ["route-2"]) reqWithSchedule)).1
            = ⟨200, .route route⟩
          ∧ stopDestinations route.optimized_sequence = [destB]
          ∧ stopDestinations route.optimized_sequence ≠ scheduleY.destinations :=
  ⟨rfl, rfl, rfl, by decide, _, rfl, rfl, by decide⟩

/-- Claim C12 as amended: the handler of `POST /routes/optimize` never consults
the `schedules` map.  Its response and the `routes` map afterwards are the same
for every content of `schedules`; a shape-valid request with a non-empty
explicit list gets a route over exactly that list, whether or not its
`schedule_id` resolves; a shape-valid request with a truthy `schedule_id` and no
list is answered 404 SCHEDULE_NOT_FOUND. -/
theorem C12_route_is_built_from_request_list (s : State) (env : Env) (req : OptimizeRequest) :
    (∀ schedules1 : Store Schedule,
        (step ⟨s.routes, schedules1⟩ (.postOptimize env req)).1
            = (step s (.postOptimize env req)).1
          ∧ (step ⟨s.routes, schedules1⟩ (.postOptimize env req)).2.routes
            = (step s (.postOptimize env req)).2.routes)
      ∧ (∀ d ds, req.errors = [] → req.body.destinations = some (d :: ds) →
          ∃ route, (step s (.postOptimize env req)).1 = ⟨200, .route route⟩
            ∧ stopDestinations route.optimized_sequence = d :: ds)
      ∧ (req.errors = [] → truthy req.body.schedule_id = true →
          req.body.destinations = none →
          (step s (.postOptimize env req)).1
            = ⟨404, .error "SCHEDULE_NOT_FOUND" "Schedule ID does not exist or has expired"
                .absent⟩) := by
  refine ⟨fun _ => ⟨rfl, rfl⟩, ?_, ?_⟩
  · intro d ds he hd
    obtain ⟨route, hres, _, _, hseq, _⟩ := postOptimize_nonempty s.routes env req d ds he hd
    refine ⟨route, by simp only [step, hres], ?_⟩
    rw [hseq]
    exact stopDestinations_optimized env.now (d :: ds) req.body.origin
      req.body.departure_time req.body.preferences
  · intro he hs hd
    simp [step, postOptimize, optimizeTry, he, hs, hd, pure, Except.pure]

/-- Input for the amended C12: the request that names the stored schedule
`schedule-1` and carries `[B]` gets a route over `[B]`. -/
theorem C12_route_is_built_from_request_list_witness :
    reqWithSchedule.errors = [] ∧ reqWithSchedule.body.destinations = some [destB]
      ∧ ∃ route,
          (step (run State.empty demoRequests)
              (.postOptimize (envAt 2000 ["route-2"]) reqWithSchedule)).1
            = ⟨200, .route route⟩
          ∧ stopDestinations route.optimized_sequence = [destB] :=
  ⟨rfl, rfl,
   (C12_route_is_built_from_request_list (run State.empty demoRequests)
      (envAt 2000 ["route-2"]) reqWithSchedule).2.1 destB [] rfl rfl⟩

/-- Claim C13: a shape-valid request whose `destinations` is an empty array
(whatever its `schedule_id`), or whose `destinations` is absent while its
`schedule_id` is absent (or the empty string), is answered 400 INVALID_REQUEST;
the answer does not depend on the clock or the uuid generator, which
`optimizeRoute` and the route creation would read, and the `routes` map is
returned as it was. -/
theorem C13_empty_destinations_rejected (routes : Store Route) (env : Env)
    (req : OptimizeRequest) (hvalid : req.errors = [])
    (hempty : req.body.destinations = some []
      ∨ (req.body.destinations = none ∧ truthy req.body.schedule_id = false)) :
    postOptimize routes env req
      = (⟨400, .error "INVALID_REQUEST" "No destinations provided" .absent⟩, routes) := by
  rcases hempty with hd | ⟨hd, hs⟩
  · simp [postOptimize, optimizeTry, hvalid, hd, pure, Except.pure]
  · simp [postOptimize, optimizeTry, hvalid, hd, hs, pure, Except.pure]

/-- Input for C13: an empty array together with a schedule id, sent to a map
that already holds a route. -/
theorem C13_empty_destinations_rejected_witness :
    reqEmpty.errors = [] ∧ reqEmpty.body.destinations = some []
      ∧ postOptimize [("route-1", routeY)] (envAt 7 ["route-2"]) reqEmpty
          = (⟨400, .error "INVALID_REQUEST" "No destinations provided" .absent⟩,
              [("route-1", routeY)]) :=
  ⟨rfl, rfl,
   C13_empty_destinations_rejected [("route-1", routeY)] (envAt 7 ["route-2"]) reqEmpty rfl
     (Or.inl rfl)⟩

/-- Serving `POST /routes/optimize` changes the state only through the `routes`
map returned by the handler. -/
theorem step_postOptimize (s : State) (env : Env) (req : OptimizeRequest) :
    step s (.postOptimize env req)
      = ((postOptimize s.routes env req).1,
          ⟨(postOptimize s.routes env req).2, s.schedules⟩) := rfl

/-- Serving `POST /schedules/parse` changes the state only through the
`schedules` map returned by the handler. -/
theorem step_postParse (s : State) (env : Env) (req : ParseRequest) :
    step s (.postParse env req)
      = ((postParse s.schedules env req).1,
          ⟨s.routes, (postParse s.schedules env req).2⟩) := rfl

/-- Claim C14: when the validation result is non-empty, `POST /routes/optimize`
and `POST /schedules/parse` answer 400 VALIDATION_ERROR with the errors as
details, an answer that depends neither on the clock nor on the uuid generator
(the optimizer and the parser are not reached), and both maps are as before;
and every response of the two endpoints with a status other than 200 leaves
both maps as before. -/
theorem C14_invalid_request_changes_nothing (s : State) (env : Env) :
    (∀ req : OptimizeRequest, req.errors ≠ [] →
        step s (.postOptimize env req)
          = (⟨400, .error "VALIDATION_ERROR" "Invalid input data" (.validation req.errors)⟩, s))
      ∧ (∀ req : ParseRequest, req.errors ≠ [] →
        step s (.postParse env req)
          = (⟨400, .error "VALIDATION_ERROR" "Invalid input data" (.validation req.errors)⟩, s))
      ∧ (∀ req : OptimizeRequest, (step s (.postOptimize env req)).1.status ≠ 200 →
        (step s (.postOptimize env req)).2 = s)
      ∧ (∀ req : ParseRequest, (step s (.postParse env req)).1.status ≠ 200 →
        (step s (.postParse env req)).2 = s) := by
  refine ⟨?_, ?_, ?_, ?_⟩
  · intro req he
    have he1 : req.errors.isEmpty = false := by
      cases h : req.errors with
      | nil => exact absurd h he
      | cons e es => rfl
    rw [step_postOptimize]
    simp [postOptimize, optimizeTry, he1, pure, Except.pure]
  · intro req he
    have he1 : req.errors.isEmpty = false := by
      cases h : req.errors with
      | nil => exact absurd h he
      | cons e es => rfl
    rw [step_postParse]
    simp [postParse, parseTry, he1, pure, Except.pure]
  · intro req hne
    rw [step_postOptimize] at hne ⊢
    rcases postOptimize_cases s.routes env req with ⟨_, hsame⟩ | ⟨route, hres, _⟩
    · simp only [hsame]
    · rw [hres] at hne
      exact absurd rfl hne
  · intro req hne
    rw [step_postParse] at hne ⊢
    rcases postParse_cases s.schedules env req with hsame | ⟨sch, hres, _⟩
    · simp only [hsame]
    · rw [hres] at hne
      exact absurd rfl hne

/-- Input for C14: an optimize request without `origin`, served by a process
that already holds a schedule and a route. -/
theorem C14_invalid_request_changes_nothing_witness :
    reqInvalid.errors ≠ []
      ∧ step (run State.empty demoRequests) (.postOptimize (envAt 7 ["route-2"]) reqInvalid)
          = (⟨400, .error "VALIDATION_ERROR" "Invalid input data"
                (.validation reqInvalid.errors)⟩,
              run State.empty demoRequests) :=
  ⟨by decide,
   (C14_invalid_request_changes_nothing (run State.empty demoRequests)
      (envAt 7 ["route-2"])).1 reqInvalid (by decide)⟩

/-- Claim C15 fails as stated: when the millisecond changes between the two
clock readings of the route creation, `created_at` is 5000 and `expires_at` is
3605001, which is 3600001 ms later. -/
theorem C15_expiry_is_not_exactly_one_hour_after_creation :
    ∃ route, postOptimize [] ⟨clockTurning, (envAt 0 ["route-1"]).uuid⟩ reqY
          = (⟨200, .route route⟩, [("route-1", route)])
        ∧ route.created_at = 5000 ∧ route.expires_at = 3605001
        ∧ route.expires_at ≠ route.created_at + 3600000 :=
  ⟨_, rfl, rfl, rfl, by decide⟩

/-- Claim C15 as amended: the `expires_at` of a created route is exactly
3600000 ms after the clock reading that follows the reading of `created_at`.
With a clock that never goes backwards it is at least 3600000 ms after
`created_at`, and it is exactly 3600000 ms after `created_at` when the two
readings are equal. -/
theorem C15_expiry_is_one_hour_after_next_reading (routes routes1 : Store Route) (env : Env)
    (req : OptimizeRequest) (route : Route)
    (h : postOptimize routes env req = (⟨200, .route route⟩, routes1)) :
    ∃ n, (req.body.destinations.map List.length) = some n
      ∧ route.created_at = env.now (2 * n)
      ∧ route.expires_at = env.now (2 * n + 1) + 3600000
      ∧ (Monotone env.now → route.created_at + 3600000 ≤ route.expires_at)
      ∧ (env.now (2 * n + 1) = env.now (2 * n) →
          route.expires_at = route.created_at + 3600000) := by
  cases he : req.errors with
  | cons e es => simp [postOptimize, optimizeTry, he, pure, Except.pure] at h
  | nil =>
      cases hd : req.body.destinations with
      | none =>
          cases hs : truthy req.body.schedule_id <;>
            simp [postOptimize, optimizeTry, he, hd, hs, pure, Except.pure] at h
      | some dests =>
          cases dests with
          | nil => simp [postOptimize, optimizeTry, he, hd, pure, Except.pure] at h
          | cons d ds =>
              obtain ⟨r, hres, _, _, _, _, hc, hx⟩ :=
                postOptimize_nonempty routes env req d ds he hd
              rw [hres] at h
              simp only [Prod.mk.injEq, Response.mk.injEq, Body.route.injEq, true_and] at h
              obtain ⟨hr, _⟩ := h
              subst hr
              refine ⟨(d :: ds).length, rfl, hc, hx, ?_, ?_⟩
              · intro hmono
                have hle : env.now (2 * (d :: ds).length)
                    ≤ env.now (2 * (d :: ds).length + 1) := hmono (Nat.le_succ _)
                rw [hc, hx]
                omega
              · intro heq
                rw [hc, hx, heq]

/-- Input for the amended C15: with a clock that stands still during the
request the route created at 0 expires at 3600000. -/
theorem C15_expiry_is_one_hour_after_next_reading_witness :
    ∃ n, (reqY.body.destinations.map List.length) = some n
      ∧ routeY.created_at = (envAt 0 ["route-1"]).now (2 * n)
      ∧ routeY.expires_at = (envAt 0 ["route-1"]).now (2 * n + 1) + 3600000
      ∧ (Monotone (envAt 0 ["route-1"]).now → routeY.created_at + 3600000 ≤ routeY.expires_at)
      ∧ ((envAt 0 ["route-1"]).now (2 * n + 1) = (envAt 0 ["route-1"]).now (2 * n) →
          routeY.expires_at = routeY.created_at + 3600000) :=
  C15_expiry_is_one_hour_after_next_reading [] [("route-1", routeY)] (envAt 0 ["route-1"])
    reqY routeY (by decide)

/-! ### Claims C16 and C17: the parse handler and the parser -/

theorem mapSet_length_fresh {α : Type} (m : Store α) (k : String) (v : α)
    (h : mapGet m k = none) : (mapSet m k v).length = m.length + 1 := by
  induction m with
  | nil => rfl
  | cons e rest ih =>
      obtain ⟨k0, v0⟩ := e
      by_cases h0 : k0 = k
      · simp [mapGet, h0] at h
      · simp only [mapGet, h0, if_false] at h
        simp [mapSet, h0, ih h]

/-- Claim C16: for every parser result, the part of the handler that follows
the parser answers 400 INVALID_SCHEDULE and returns the `schedules` map as it
was when `destinations` is missing or empty, without drawing a uuid; when there
is at least one destination it answers 200 and stores one schedule with those
destinations under a newly drawn `schedule_id`, every other key keeping its
value (so the map grows by exactly one entry when the id was not in use).  The
handler of a shape-valid request is this continuation applied to the result of
`parseScheduleText`. -/
theorem C16_parse_failure_surfaced (schedules : Store Schedule) (env : Env)
    (req : ParseRequest) (n : Nat) (pd : ParsedData) :
    ((pd.destinations = none ∨ pd.destinations = some []) →
        parseAfter schedules env req n pd
          = (⟨400, .error "INVALID_SCHEDULE" "Could not parse schedule text"
                (.text "No destinations found in the provided text")⟩, schedules))
      ∧ (∀ d ds, pd.destinations = some (d :: ds) →
          ∃ sch : Schedule,
            parseAfter schedules env req n pd
                = (⟨200, .parsed ⟨sch.schedule_id, sch.user_id, sch.destinations,
                      sch.ambiguities, sch.created_at⟩⟩,
                    mapSet schedules sch.schedule_id sch)
              ∧ sch.schedule_id = env.uuid n ∧ sch.user_id = req.userId
              ∧ sch.destinations = d :: ds
              ∧ mapGet (mapSet schedules sch.schedule_id sch) sch.schedule_id = some sch
              ∧ (∀ k, sch.schedule_id ≠ k →
                  mapGet (mapSet schedules sch.schedule_id sch) k = mapGet schedules k)
              ∧ (mapGet schedules sch.schedule_id = none →
                  (mapSet schedules sch.schedule_id sch).length = schedules.length + 1))
      ∧ (req.errors = [] →
          postParse schedules env req
            = parseAfter schedules env req 2
                (parseScheduleText env.uuid req.body.schedule_text)) := by
  refine ⟨?_, ?_, ?_⟩
  · rintro (h | h) <;> simp [parseAfter, h]
  · intro d ds h
    refine ⟨{ schedule_id := env.uuid n
              user_id := req.userId
              original_text := req.body.schedule_text
              timezone := req.body.timezone.getD "UTC"
              destinations := d :: ds
              ambiguities := pd.ambiguities
              created_at := env.now 0 }, ?_, rfl, rfl, rfl,
            mapGet_mapSet_same _ _ _, fun k hk => mapGet_mapSet_other _ _ _ _ hk,
            fun hfresh => mapSet_length_fresh _ _ _ hfresh⟩
    simp [parseAfter, h]
  · intro he
    simp [postParse, parseTry, he, pure, Except.pure, bind, Except.bind]

/-- Input for C16: a parser result with an empty list, and one with the single
destination `B`, handled for `user-Y` with an empty map. -/
theorem C16_parse_failure_surfaced_witness :
    parseAfter [] (envAt 1000 ["schedule-9"]) parseReqY 0 ⟨some [], []⟩
        = (⟨400, .error "INVALID_SCHEDULE" "Could not parse schedule text"
              (.text "No destinations found in the provided text")⟩, [])
      ∧ ∃ sch : Schedule,
          parseAfter [] (envAt 1000 ["schedule-9"]) parseReqY 0 ⟨some [destB], []⟩
              = (⟨200, .parsed ⟨sch.schedule_id, sch.user_id, sch.destinations,
                    sch.ambiguities, sch.created_at⟩⟩,
                  mapSet [] sch.schedule_id sch)
            ∧ sch.schedule_id = "schedule-9" ∧ sch.destinations = [destB] :=
  ⟨(C16_parse_failure_surfaced [] (envAt 1000 ["schedule-9"]) parseReqY 0 ⟨some [], []⟩).1
      (Or.inr rfl),
   match (C16_parse_failure_surfaced [] (envAt 1000 ["schedule-9"]) parseReqY 0
      ⟨some [destB], []⟩).2.1 destB [] rfl with
   | ⟨sch, h1, h2, _, h4, _⟩ => ⟨sch, h1, h2, h4⟩⟩

/-- Claim C17: for the text of scenario B the parser returns exactly two
destinations and no ambiguities; the first is named dentist and must be reached
by 14:00, the second is named grocery store and is flexible, so exactly one of
the two carries the `arrive_by` constraint. -/
theorem C17_scenario_B_parse (uuid : Nat → String) :
    ∃ d1 d2 : Destination,
      (parseScheduleText uuid "dentist at 2pm, grocery store").destinations = some [d1, d2]
        ∧ (parseScheduleText uuid "dentist at 2pm, grocery store").ambiguities = []
        ∧ d1.name = "dentist" ∧ d1.time_constraint = ⟨"arrive_by", some "14:00"⟩
        ∧ d2.name = "grocery store" ∧ d2.time_constraint = ⟨"flexible", none⟩
        ∧ d2.time_constraint ≠ ⟨"arrive_by", some "14:00"⟩
        ∧ d1.time_constraint ≠ ⟨"flexible", none⟩ :=
  ⟨_, _, rfl, rfl, rfl, rfl, rfl, rfl, by dsimp only; decide, by dsimp only; decide⟩

/-! ### Claim C18: the authentication middleware -/

/-- The outcomes of `authenticateToken`, case by case. -/
theorem authenticate_outcomes (verify : String → Except JwtError TokenPayload)
    (authHeader : Option String) :
    (∀ user, authenticateToken verify authHeader = .next user
        ↔ ∃ token, extractToken authHeader = some token ∧ token ≠ ""
            ∧ verify token = .ok user)
      ∧ (truthy (extractToken authHeader) = false →
          authenticateToken verify authHeader
            = .respond ⟨401, .error "UNAUTHORIZED" "Missing authentication token" .absent⟩)
      ∧ (∀ token err, extractToken authHeader = some token → token ≠ "" →
          verify token = .error err → err.name = "TokenExpiredError" →
          authenticateToken verify authHeader
            = .respond ⟨401, .error "TOKEN_EXPIRED" "Authentication token has expired"
                (.text "Please refresh your token")⟩)
      ∧ (∀ token err, extractToken authHeader = some token → token ≠ "" →
          verify token = .error err → err.name ≠ "TokenExpiredError" →
          authenticateToken verify authHeader
            = .respond ⟨401, .error "INVALID_TOKEN" "Invalid authentication token" .absent⟩)
      ∧ (∀ res, authenticateToken verify authHeader = .respond res → res.status = 401) := by
  unfold authenticateToken
  cases hx : extractToken authHeader with
  | none =>
      refine ⟨fun user => ⟨fun h => by simp at h, fun ⟨_, h, _⟩ => by simp at h⟩,
        fun _ => rfl, ?_, ?_, ?_⟩
      · intro token err h; simp at h
      · intro token err h; simp at h
      · intro res h
        simp only [AuthOutcome.respond.injEq] at h
        rw [← h]
  | some tok =>
      by_cases ht : tok = ""
      · subst ht
        refine ⟨fun user => ⟨fun h => by simp [truthy] at h, ?_⟩, fun _ => by simp [truthy],
          ?_, ?_, ?_⟩
        · rintro ⟨token, h, hne, _⟩
          simp only [Option.some.injEq] at h
          exact absurd h.symm hne
        · intro token err h hne
          simp only [Option.some.injEq] at h
          exact absurd h.symm hne
        · intro token err h hne
          simp only [Option.some.injEq] at h
          exact absurd h.symm hne
        · intro res h
          simp [truthy] at h
          rw [← h]
      · have htruthy : truthy (some tok) = true := by simp [truthy, ht]
        simp only [htruthy, Bool.not_true, Bool.false_eq_true, if_false]
        refine ⟨?_, fun h => by simp at h, ?_, ?_, ?_⟩
        · intro user
          constructor
          · intro h
            refine ⟨tok, rfl, ht, ?_⟩
            cases hv : verify tok with
            | ok decoded =>
                rw [hv] at h
                simp only [AuthOutcome.next.injEq] at h
                rw [h]
            | error err =>
                rw [hv] at h
                by_cases hn : err.name = "TokenExpiredError" <;> simp [hn] at h
          · rintro ⟨token, h, _, hv⟩
            simp only [Option.some.injEq] at h
            subst h
            rw [hv]
        · intro token err h _ hv hn
          simp only [Option.some.injEq] at h
          subst h
          rw [hv]
          simp [hn]
        · intro token err h _ hv hn
          simp only [Option.some.injEq] at h
          subst h
          rw [hv]
          simp [hn]
        · intro res h
          cases hv : verify tok with
          | ok decoded =>
              rw [hv] at h
              simp at h
          | error err =>
              rw [hv] at h
              by_cases hn : err.name = "TokenExpiredError" <;> simp [hn] at h <;> rw [← h]

/-- Claim C18: `authenticateToken` calls `next()` exactly when the header yields
a truthy token and `jwt.verify` accepts it, and `req.user` is then the decoded
payload.  Otherwise it responds itself, always with status 401: UNAUTHORIZED
when the header yields no token, TOKEN_EXPIRED when verification throws an
error named `TokenExpiredError`, INVALID_TOKEN for every other error.  A router
mounted behind the middleware runs its handler with that user in the first
case only; in the others the response is the one of the middleware and the
state of the process is untouched, whatever the handler is. -/
theorem C18_authenticate_token_outcomes (verify : String → Except JwtError TokenPayload)
    (authHeader : Option String) :
    (∀ user, authenticateToken verify authHeader = .next user
        ↔ ∃ token, extractToken authHeader = some token ∧ token ≠ ""
            ∧ verify token = .ok user)
      ∧ (truthy (extractToken authHeader) = false →
          authenticateToken verify authHeader
            = .respond ⟨401, .error "UNAUTHORIZED" "Missing authentication token" .absent⟩)
      ∧ (∀ token err, extractToken authHeader = some token → token ≠ "" →
          verify token = .error err → err.name = "TokenExpiredError" →
          authenticateToken verify authHeader
            = .respond ⟨401, .error "TOKEN_EXPIRED" "Authentication token has expired"
                (.text "Please refresh your token")⟩)
      ∧ (∀ token err, extractToken authHeader = some token → token ≠ "" →
          verify token = .error err → err.name ≠ "TokenExpiredError" →
          authenticateToken verify authHeader
            = .respond ⟨401, .error "INVALID_TOKEN" "Invalid authentication token" .absent⟩)
      ∧ (∀ res, authenticateToken verify authHeader = .respond res → res.status = 401)
      ∧ (∀ (σ : Type) (handler : TokenPayload → σ → Response × σ) (st : σ),
          (∀ user, authenticateToken verify authHeader = .next user →
              protect verify authHeader handler st = handler user st)
            ∧ (∀ res, authenticateToken verify authHeader = .respond res →
              protect verify authHeader handler st = (res, st))) := by
  refine ⟨(authenticate_outcomes verify authHeader).1,
    (authenticate_outcomes verify authHeader).2.1,
    (authenticate_outcomes verify authHeader).2.2.1,
    (authenticate_outcomes verify authHeader).2.2.2.1,
    (authenticate_outcomes verify authHeader).2.2.2.2, ?_⟩
  intro σ handler st
  constructor
  · intro user h
    simp only [protect, h]
  · intro res h
    simp only [protect, h]

/-- Input for C18: the header `Bearer good` yields the token `good`, which the
verifier accepts, and the middleware passes the decoded payload on. -/
theorem C18_authenticate_token_outcomes_witness :
    extractToken (some "Bearer good") = some "good"
      ∧ demoVerify "good" = .ok ⟨"user-Y", "y@example.com", 0, 86400⟩
      ∧ authenticateToken demoVerify (some "Bearer good")
          = .next ⟨"user-Y", "y@example.com", 0, 86400⟩ :=
  ⟨by decide, by simp [demoVerify],
   ((C18_authenticate_token_outcomes demoVerify (some "Bearer good")).1
      ⟨"user-Y", "y@example.com", 0, 86400⟩).2
      ⟨"good", by decide, by decide, by simp [demoVerify]⟩⟩

/-! ### Claims C19 and C20: round trip and summary -/

/-- Claim C19: when `POST /routes/optimize` of user `u` answers 200 with route
`r`, the `GET /routes/:routeId` for `r.route_id` that `u` sends next is answered
200 with a body made of `r` itself, every field unchanged, and the added
`steps`; the lookup leaves the state, the `routes` map included, as it was. -/
theorem C19_optimize_then_get_round_trip (s : State) (env later : Env)
    (req : OptimizeRequest) (r : Route)
    (h : (step s (.postOptimize env req)).1 = ⟨200, .route r⟩) :
    step (step s (.postOptimize env req)).2 (.getRoute later r.route_id req.userId)
      = (⟨200, .routeWithSteps r generateRouteSteps⟩, (step s (.postOptimize env req)).2) := by
  rw [step_postOptimize] at h ⊢
  have hpair : postOptimize s.routes env req
      = (⟨200, .route r⟩, (postOptimize s.routes env req).2) := by
    rw [← h]
  obtain ⟨route, hb, hu, _, hset⟩ := postOptimize_ok s.routes _ env req _ hpair
  cases hb
  simp only [step]
  rw [← hu, getRoute_owner _ later _ _ (by rw [hset]; exact mapGet_mapSet_same _ _ _)]

/-- Input for C19: `user-Y` optimizes `[B]` at time 0 and reads the route back
at time 9. -/
theorem C19_optimize_then_get_round_trip_witness :
    (step State.empty (.postOptimize (envAt 0 ["route-1"]) reqY)).1 = ⟨200, .route routeY⟩
      ∧ step (step State.empty (.postOptimize (envAt 0 ["route-1"]) reqY)).2
            (.getRoute (envAt 9 []) routeY.route_id reqY.userId)
          = (⟨200, .routeWithSteps routeY generateRouteSteps⟩,
              (step State.empty (.postOptimize (envAt 0 ["route-1"]) reqY)).2) :=
  ⟨by decide,
   C19_optimize_then_get_round_trip State.empty (envAt 0 ["route-1"]) (envAt 9 []) reqY routeY
     (by decide)⟩

theorem sumTrafficDelay_const (stops : List Stop)
    (h : ∀ s ∈ stops, s.traffic_delay_minutes = 15) :
    sumTrafficDelay stops = 15 * stops.length := by
  induction stops with
  | nil => rfl
  | cons s rest ih =>
      have hs : s.traffic_delay_minutes = 15 := h s (List.mem_cons_self _ _)
      have hrest : sumTrafficDelay rest = 15 * rest.length :=
        ih (fun x hx => h x (List.mem_cons_of_mem _ hx))
      simp only [sumTrafficDelay, List.map_cons, List.sum_cons, List.length_cons] at hrest ⊢
      rw [hs, hrest]
      omega

/-- Claim C20 fails as stated: for the single destination `B` the only stop has
`traffic_delay_minutes` 15, so the sum over the stops is 15, while the summary
reports `total_traffic_delay_minutes` 23. -/
theorem C20_total_delay_differs_from_sum :
    (optimizeRoute noon [destB] ⟨0, 0⟩ "1970-01-01T12:00:00.000Z" none).optimized_sequence
        = [⟨1, destB, 45900000, 47700000, 45, 15⟩]
      ∧ sumTrafficDelay (optimizeRoute noon [destB] ⟨0, 0⟩ "1970-01-01T12:00:00.000Z"
          none).optimized_sequence = 15
      ∧ (optimizeRoute noon [destB] ⟨0, 0⟩ "1970-01-01T12:00:00.000Z"
          none).summary.total_traffic_delay_minutes = 23 :=
  ⟨by decide, by decide, by decide⟩

/-- Claim C20 as amended: `summary.arrival_time` is the `arrival_time` of the
last stop for every non-empty destination list.  The totals of the summary are
fixed values: `total_traffic_delay_minutes` is 23 for every input, whereas
every stop has `traffic_delay_minutes` 15, so the sum over the `n` stops is
`15 n` and never equals the reported total. -/
theorem C20_summary_arrival_is_last_stop (now : Nat → Nat) (ds : List Destination)
    (o : Coordinates) (t : String) (p : Option Preferences) :
    (ds ≠ [] →
        ∃ last, (optimizeRoute now ds o t p).optimized_sequence.getLast? = some last
          ∧ (optimizeRoute now ds o t p).summary.arrival_time = some last.arrival_time)
      ∧ (optimizeRoute now ds o t p).summary.total_traffic_delay_minutes = 23
      ∧ sumTrafficDelay (optimizeRoute now ds o t p).optimized_sequence = 15 * ds.length
      ∧ (optimizeRoute now ds o t p).summary.total_traffic_delay_minutes
          ≠ sumTrafficDelay (optimizeRoute now ds o t p).optimized_sequence := by
  have hsum : sumTrafficDelay (optimizeRoute now ds o t p).optimized_sequence
      = 15 * ds.length := by
    rw [sumTrafficDelay_const, optimized_sequence_length]
    intro s hs
    obtain ⟨i, d, _, rfl⟩ := (mem_optimized_sequence now ds o t p s).1 hs
    rfl
  have htotal : (optimizeRoute now ds o t p).summary.total_traffic_delay_minutes = 23 := rfl
  refine ⟨?_, htotal, hsum, ?_⟩
  · intro hne
    have hlen : (optimizeRoute now ds o t p).optimized_sequence ≠ [] := by
      intro h
      have h0 := optimized_sequence_length now ds o t p
      rw [h] at h0
      exact hne (List.length_eq_zero.1 h0.symm)
    cases hl : (optimizeRoute now ds o t p).optimized_sequence.getLast? with
    | none => exact absurd (List.getLast?_eq_none_iff.1 hl) hlen
    | some last =>
        refine ⟨last, rfl, ?_⟩
        have hsummary : (optimizeRoute now ds o t p).summary.arrival_time
            = ((optimizeRoute now ds o t p).optimized_sequence.getLast?).map
                (fun s => s.arrival_time) := rfl
        rw [hsummary, hl]
        rfl
  · rw [htotal, hsum]
    omega

/-- Input for the amended C20: for `[B, A]` at noon the last stop is the one of
`A`, reached at 13:30, and the summary reports that arrival time. -/
theorem C20_summary_arrival_is_last_stop_witness :
    [destB, destA] ≠ []
      ∧ ∃ last, (optimizeRoute noon [destB, destA] ⟨0, 0⟩ "1970-01-01T12:00:00.000Z"
            none).optimized_sequence.getLast? = some last
          ∧ (optimizeRoute noon [destB, destA] ⟨0, 0⟩ "1970-01-01T12:00:00.000Z"
            none).summary.arrival_time = some last.arrival_time :=
  ⟨by decide,
   (C20_summary_arrival_is_last_stop noon [destB, destA] ⟨0, 0⟩ "1970-01-01T12:00:00.000Z"
      none).1 (by decide)⟩

/-! ### Claims C21 and C22: the catch-all error response, the order numbering -/

/-- Claim C21: for an error whose name is none of `ValidationError`,
`UnauthorizedError`, `ForbiddenError`, `NotFoundError`, and for every value of
`NODE_ENV`, the response has status 500, code INTERNAL_ERROR, the fixed message
and the generated request id; it has no `stack`, and nothing in it depends on
the message or the stack of the error. -/
theorem C21_catch_all_hides_error_detail (uuid : Nat → String) (nodeEnv : Option String)
    (err : ThrownError) (h1 : err.name ≠ "ValidationError")
    (h2 : err.name ≠ "UnauthorizedError") (h3 : err.name ≠ "ForbiddenError")
    (h4 : err.name ≠ "NotFoundError") :
    errorHandler uuid nodeEnv err
      = (500, ⟨"INTERNAL_ERROR", "An unexpected error occurred", uuid 0, none⟩) := by
  by_cases hp : nodeEnv = some "production" <;> simp [errorHandler, h1, h2, h3, h4, hp]

/-- Input for C21: a `TypeError` with a message and a stack, outside
production. -/
theorem C21_catch_all_hides_error_detail_witness :
    errorHandler (fun _ => "request-1") (some "development")
        ⟨"TypeError", "cannot read properties of undefined", some "at handler (routes.js:78)"⟩
      = (500, ⟨"INTERNAL_ERROR", "An unexpected error occurred", "request-1", none⟩) :=
  C21_catch_all_hides_error_detail (fun _ => "request-1") (some "development")
    ⟨"TypeError", "cannot read properties of undefined", some "at handler (routes.js:78)"⟩
    (by decide) (by decide) (by decide) (by decide)

/-- Claim C22: the `order` values of the computed sequence are `1, 2, ..., n` in
sequence order, hence without gap or repeat and exactly the numbers from 1 to
`n`, and the stop at 0-based position `k`, whose order is `k + 1`, carries the
input destination at position `k`. -/
theorem C22_order_is_dense_one_based (now : Nat → Nat) (ds : List Destination)
    (o : Coordinates) (t : String) (p : Option Preferences) :
    (optimizeRoute now ds o t p).optimized_sequence.map (fun s => s.order)
        = (List.range ds.length).map (fun k => k + 1)
      ∧ ((optimizeRoute now ds o t p).optimized_sequence.map (fun s => s.order)).Nodup
      ∧ (∀ i, i ∈ (optimizeRoute now ds o t p).optimized_sequence.map (fun s => s.order)
          ↔ 1 ≤ i ∧ i ≤ ds.length)
      ∧ (∀ k d, ds[k]? = some d →
          ∃ s, (optimizeRoute now ds o t p).optimized_sequence[k]? = some s
            ∧ s.order = k + 1 ∧ s.destination = d) := by
  have horders : (optimizeRoute now ds o t p).optimized_sequence.map (fun s => s.order)
      = (List.range ds.length).map (fun k => k + 1) := by
    apply List.ext_getElem?
    intro i
    simp only [List.getElem?_map, optimized_sequence_getElem?]
    by_cases h : i < ds.length
    · rw [List.getElem?_range h, List.getElem?_eq_getElem h]
      rfl
    · have h1 : ds[i]? = none := List.getElem?_eq_none (Nat.le_of_not_lt h)
      have h2 : (List.range ds.length)[i]? = none :=
        List.getElem?_eq_none (by rw [List.length_range]; exact Nat.le_of_not_lt h)
      rw [h1, h2]
      rfl
  refine ⟨horders, ?_, ?_, ?_⟩
  · rw [horders]
    exact (List.nodup_range ds.length).map (fun a b hab => Nat.succ_injective hab)
  · intro i
    rw [horders, List.mem_map]
    constructor
    · rintro ⟨k, hk, rfl⟩
      rw [List.mem_range] at hk
      omega
    · rintro ⟨h1, h2⟩
      exact ⟨i - 1, List.mem_range.2 (by omega), by omega⟩
  · intro k d hd
    exact ⟨stopAt now k d, by rw [optimized_sequence_getElem?, hd]; rfl, rfl, rfl⟩

/-- Input for C22: for `[B, A]` the second position holds `A` with order 2. -/
theorem C22_order_is_dense_one_based_witness :
    [destB, destA][1]? = some destA
      ∧ ∃ s, (optimizeRoute noon [destB, destA] ⟨0, 0⟩ "1970-01-01T12:00:00.000Z"
            none).optimized_sequence[1]? = some s
          ∧ s.order = 1 + 1 ∧ s.destination = destA :=
  ⟨rfl,
   (C22_order_is_dense_one_based noon [destB, destA] ⟨0, 0⟩ "1970-01-01T12:00:00.000Z"
      none).2.2.2 1 destA rfl⟩

/-! ### Claims C23, C24, C27, C28: registration and login -/

theorem mapGet_omitKey_same (key : String) (obj : JsonObject) :
    mapGet (omitKey key obj) key = none := by
  induction obj with
  | nil => rfl
  | cons field rest ih =>
      obtain ⟨k, v⟩ := field
      by_cases h : k = key
      · simpa [omitKey, List.filter_cons, h] using ih
      · have ih1 : mapGet (List.filter (fun field => field.1 != key) rest) key = none := ih
        simp [omitKey, List.filter_cons, h, mapGet, ih1]

theorem mapGet_omitKey_other (key k : String) (obj : JsonObject) (h : k ≠ key) :
    mapGet (omitKey key obj) k = mapGet obj k := by
  induction obj with
  | nil => rfl
  | cons field rest ih =>
      obtain ⟨k0, v⟩ := field
      have ih1 : mapGet (List.filter (fun field => field.1 != key) rest) k = mapGet rest k := ih
      by_cases h0 : k0 = key
      · subst h0
        have h1 : ¬ k0 = k := fun e => h e.symm
        simp [omitKey, List.filter_cons, mapGet, ih1, h1]
      · by_cases h1 : k0 = k
        · subst h1
          simp [omitKey, List.filter_cons, h0, mapGet]
        · simp [omitKey, List.filter_cons, h0, mapGet, h1, ih1]

theorem mapSet_fresh {α : Type} (m : Store α) (k : String) (v : α) (h : mapGet m k = none) :
    mapSet m k v = m ++ [(k, v)] := by
  induction m with
  | nil => rfl
  | cons e rest ih =>
      obtain ⟨k0, v0⟩ := e
      by_cases h0 : k0 = k
      · simp [mapGet, h0] at h
      · simp only [mapGet, h0, if_false] at h
        simp [mapSet, h0, ih h]

/-- The user object of a response is the stored record without its password. -/
theorem omit_password_toObject (u : User) :
    omitKey "password" u.toObject
      = [ ("user_id", .str u.user_id), ("email", .str u.email), ("name", .str u.name),
          ("created_at", .time u.created_at) ] := by
  simp [omitKey, User.toObject, List.filter_cons]

/-- The four ways `POST /auth/register` ends when no other request is served
while it is suspended. -/
theorem postRegister_cases (crypto : Crypto) (users : Store User) (env : Env)
    (req : RegisterRequest) :
    (req.errors ≠ [] ∧ postRegister crypto users env req
        = (⟨400, .error "VALIDATION_ERROR" "Invalid input data" (.validation req.errors)⟩,
            users))
      ∨ (req.errors = [] ∧ (∃ u, mapGet users req.body.email = some u)
          ∧ postRegister crypto users env req
            = (⟨409, .error "EMAIL_EXISTS" "Email already registered" .absent⟩, users))
      ∨ (req.errors = [] ∧ mapGet users req.body.email = none
          ∧ (∃ text, req.body.password = .other text)
          ∧ postRegister crypto users env req
            = (⟨500, .error "INTERNAL_ERROR" "Registration failed" .absent⟩, users))
      ∨ (req.errors = [] ∧ mapGet users req.body.email = none
          ∧ ∃ pw, req.body.password = .str pw
            ∧ postRegister crypto users env req
              = (⟨201, .user (omitKey "password" (User.toObject
                    ⟨env.uuid 0, req.body.email, req.body.name, crypto.hash pw, env.now 0⟩))⟩,
                 mapSet users req.body.email
                   ⟨env.uuid 0, req.body.email, req.body.name, crypto.hash pw, env.now 0⟩)) := by
  cases he : req.errors with
  | cons e es =>
      left
      exact ⟨by simp, by simp [postRegister, registerCheck, he]⟩
  | nil =>
      right
      cases hg : mapGet users req.body.email with
      | some u =>
          left
          exact ⟨rfl, ⟨u, rfl⟩, by simp [postRegister, registerCheck, he, mapHas, hg]⟩
      | none =>
          right
          cases hp : req.body.password with
          | other text =>
              left
              exact ⟨rfl, rfl, ⟨text, rfl⟩,
                by simp [postRegister, registerCheck, registerResume, bcryptHash, he, mapHas,
                  hg, hp]⟩
          | str pw =>
              right
              exact ⟨rfl, rfl, pw, rfl,
                by simp [postRegister, registerCheck, registerResume, bcryptHash, he, mapHas,
                  hg, hp]⟩

/-- The four ways `POST /auth/login` ends for a shape-valid request. -/
theorem postLogin_cases (crypto : Crypto) (users : Store User) (env : Env)
    (req : LoginRequest) (he : req.errors = []) :
    (mapGet users req.body.email = none
        ∧ postLogin crypto users env req
          = ⟨401, .error "INVALID_CREDENTIALS" "Invalid email or password" .absent⟩)
      ∨ (∃ u text, mapGet users req.body.email = some u
          ∧ req.body.password = .other text
          ∧ postLogin crypto users env req
            = ⟨500, .error "INTERNAL_ERROR" "Login failed" .absent⟩)
      ∨ (∃ u pw, mapGet users req.body.email = some u
          ∧ req.body.password = .str pw
          ∧ crypto.compare pw u.password = false
          ∧ postLogin crypto users env req
            = ⟨401, .error "INVALID_CREDENTIALS" "Invalid email or password" .absent⟩)
      ∨ (∃ u pw, mapGet users req.body.email = some u
          ∧ req.body.password = .str pw
          ∧ crypto.compare pw u.password = true
          ∧ postLogin crypto users env req
            = ⟨200, .login (crypto.sign (tokenPayload env.now u)) "Bearer" 86400
                (omitKey "password" u.toObject)⟩) := by
  cases hg : mapGet users req.body.email with
  | none =>
      left
      exact ⟨rfl, by simp [postLogin, loginTry, he, hg, pure, Except.pure]⟩
  | some u =>
      right
      cases hp : req.body.password with
      | other text =>
          left
          exact ⟨u, text, rfl, rfl,
            by simp [postLogin, loginTry, bcryptCompare, he, hg, hp, bind, Except.bind]⟩
      | str pw =>
          right
          cases hc : crypto.compare pw u.password with
          | false =>
              left
              exact ⟨u, pw, rfl, rfl, hc,
                by simp [postLogin, loginTry, bcryptCompare, he, hg, hp, hc, pure, Except.pure,
                  bind, Except.bind]⟩
          | true =>
              right
              exact ⟨u, pw, rfl, rfl, hc,
                by simp [postLogin, loginTry, bcryptCompare, he, hg, hp, hc, pure, Except.pure,
                  bind, Except.bind, generateToken]⟩

/-- Claim C23: on a 201 response of `POST /auth/register` and on a 200 response
of `POST /auth/login` the user object of the response is built from the record
stored under the email: it has no `password` field and agrees with the stored
record on every other field, that is on `user_id`, `email`, `name` and
`created_at`.  For the registration this holds for the handler run in one go
and for its second part resumed on any map. -/
theorem C23_user_returned_without_password (crypto : Crypto) (users : Store User) (env : Env) :
    (∀ req : RegisterRequest, (postRegister crypto users env req).1.status = 201 →
        ∃ u obj, (postRegister crypto users env req).1.body = .user obj
          ∧ mapGet (postRegister crypto users env req).2 req.body.email = some u
          ∧ mapGet obj "password" = none
          ∧ (∀ k, k ≠ "password" → mapGet obj k = mapGet u.toObject k)
          ∧ obj = [ ("user_id", .str u.user_id), ("email", .str u.email),
                    ("name", .str u.name), ("created_at", .time u.created_at) ])
      ∧ (∀ req : LoginRequest, (postLogin crypto users env req).status = 200 →
        ∃ u token tokenType expiresIn obj,
          (postLogin crypto users env req).body = .login token tokenType expiresIn obj
          ∧ mapGet users req.body.email = some u
          ∧ mapGet obj "password" = none
          ∧ (∀ k, k ≠ "password" → mapGet obj k = mapGet u.toObject k)
          ∧ obj = [ ("user_id", .str u.user_id), ("email", .str u.email),
                    ("name", .str u.name), ("created_at", .time u.created_at) ])
      ∧ (∀ req : RegisterRequest, (registerResume crypto users env req).1.status = 201 →
        ∃ u obj, (registerResume crypto users env req).1.body = .user obj
          ∧ mapGet (registerResume crypto users env req).2 req.body.email = some u
          ∧ mapGet obj "password" = none
          ∧ (∀ k, k ≠ "password" → mapGet obj k = mapGet u.toObject k)
          ∧ obj = [ ("user_id", .str u.user_id), ("email", .str u.email),
                    ("name", .str u.name), ("created_at", .time u.created_at) ]) := by
  refine ⟨?_, ?_, ?_⟩
  rotate_left 2
  · intro req h
    cases hp : req.body.password with
    | other text => simp [registerResume, bcryptHash, hp] at h
    | str pw =>
        simp only [registerResume, bcryptHash, hp]
        exact ⟨_, _, rfl, mapGet_mapSet_same _ _ _, mapGet_omitKey_same _ _,
          fun k hk => mapGet_omitKey_other _ _ _ hk, omit_password_toObject _⟩
  · intro req h
    rcases postRegister_cases crypto users env req with
      ⟨_, hr⟩ | ⟨_, _, hr⟩ | ⟨_, _, _, hr⟩ | ⟨_, _, pw, _, hr⟩
    · rw [hr] at h; simp at h
    · rw [hr] at h; simp at h
    · rw [hr] at h; simp at h
    · rw [hr]
      exact ⟨_, _, rfl, mapGet_mapSet_same _ _ _, mapGet_omitKey_same _ _,
        fun k hk => mapGet_omitKey_other _ _ _ hk, omit_password_toObject _⟩
  · intro req h
    cases he : req.errors with
    | cons e es =>
        simp [postLogin, loginTry, he, pure, Except.pure] at h
    | nil =>
        rcases postLogin_cases crypto users env req he with
          ⟨_, hr⟩ | ⟨u, _, _, _, hr⟩ | ⟨u, _, _, _, _, hr⟩ | ⟨u, _, hg, _, _, hr⟩
        · rw [hr] at h; exact absurd h (by decide)
        · rw [hr] at h; exact absurd h (by decide)
        · rw [hr] at h; exact absurd h (by decide)
        · rw [hr]
          exact ⟨u, _, _, _, _, rfl, hg, mapGet_omitKey_same _ _,
            fun k hk => mapGet_omitKey_other _ _ _ hk, omit_password_toObject _⟩

/-- Input for C23: `y@example.com` registers with an empty map, and the
response carries the four public fields of the stored record. -/
theorem C23_user_returned_without_password_witness :
    (postRegister demoCrypto [] (envAt 0 ["user-Y"]) registerReqY).1.status = 201
      ∧ ∃ u obj, (postRegister demoCrypto [] (envAt 0 ["user-Y"]) registerReqY).1.body
            = .user obj
          ∧ mapGet (postRegister demoCrypto [] (envAt 0 ["user-Y"]) registerReqY).2
              registerReqY.body.email = some u
          ∧ mapGet obj "password" = none
          ∧ (∀ k, k ≠ "password" → mapGet obj k = mapGet u.toObject k)
          ∧ obj = [ ("user_id", .str u.user_id), ("email", .str u.email),
                    ("name", .str u.name), ("created_at", .time u.created_at) ] :=
  ⟨by decide,
   (C23_user_returned_without_password demoCrypto [] (envAt 0 ["user-Y"])).1 registerReqY
     (by decide)⟩

/-- Claim C24 fails as stated: when the second changes between the two clock
readings of `generateToken` (1700000000999 ms, then 1700000001000 ms), the
issued token has `iat` 1700000000, which is truthy and kept by `jwt.sign`, and
`exp` 1700086401, one more than `iat + 86400`. -/
theorem C24_exp_is_not_iat_plus_one_day :
    (issuedPayload clockNextSecond userY).iat = 1700000000
      ∧ (issuedPayload clockNextSecond userY).exp = 1700086401
      ∧ (issuedPayload clockNextSecond userY).exp
          ≠ (issuedPayload clockNextSecond userY).iat + 86400 :=
  ⟨by decide, by decide, by decide⟩

/-- Claim C24 as amended: `generateToken` reads the clock twice.  For a clock
that has passed the first second of 1970 the issued token has `iat` equal to
the first reading in whole seconds (an `iat` of 0 would be replaced by
`jwt.sign` with a reading of its own) and `exp` equal to the second reading in
whole seconds plus 86400.  So `exp = iat + 86400` when both readings fall in
the same second, and `exp` is at least `iat + 86400` with a clock that never
goes backwards.  A 200 login response carries that token and advertises
`expires_in` 86400. -/
theorem C24_exp_is_one_day_after_second_reading (crypto : Crypto) (users : Store User)
    (env : Env) (user : User) :
    generateToken crypto env.now user = crypto.sign (tokenPayload env.now user)
      ∧ (issuedPayload env.now user).exp = env.now 1 / 1000 + 86400
      ∧ (issuedPayload env.now user).iat
          = (if env.now 0 / 1000 ≠ 0 then env.now 0 / 1000 else env.now 2 / 1000)
      ∧ (1000 ≤ env.now 0 → (issuedPayload env.now user).iat = env.now 0 / 1000)
      ∧ (1000 ≤ env.now 0 → env.now 1 / 1000 = env.now 0 / 1000 →
          (issuedPayload env.now user).exp = (issuedPayload env.now user).iat + 86400)
      ∧ (1000 ≤ env.now 0 → Monotone env.now →
          (issuedPayload env.now user).iat + 86400 ≤ (issuedPayload env.now user).exp)
      ∧ (∀ req : LoginRequest, (postLogin crypto users env req).status = 200 →
          ∃ u obj, mapGet users req.body.email = some u
            ∧ (postLogin crypto users env req).body
              = .login (generateToken crypto env.now u) "Bearer" 86400 obj) := by
  have hiat : 1000 ≤ env.now 0 → (issuedPayload env.now user).iat = env.now 0 / 1000 := by
    intro h
    have hpos : env.now 0 / 1000 ≠ 0 := by
      have : 1 ≤ env.now 0 / 1000 := (Nat.le_div_iff_mul_le (by decide)).2 (by omega)
      omega
    simp only [issuedPayload, tokenPayload, hpos, ne_eq, not_false_eq_true, if_true]
  have hexp : (issuedPayload env.now user).exp = env.now 1 / 1000 + 86400 := rfl
  refine ⟨rfl, hexp, rfl, hiat, ?_, ?_, ?_⟩
  · intro h hsame
    rw [hiat h, hexp, hsame]
  · intro h hmono
    have hle : env.now 0 ≤ env.now 1 := hmono (Nat.le_succ 0)
    have hdiv : env.now 0 / 1000 ≤ env.now 1 / 1000 := Nat.div_le_div_right hle
    rw [hiat h, hexp]
    omega
  · intro req h
    cases he : req.errors with
    | cons e es =>
        simp [postLogin, loginTry, he, pure, Except.pure] at h
    | nil =>
        rcases postLogin_cases crypto users env req he with
          ⟨_, hr⟩ | ⟨u, _, _, _, hr⟩ | ⟨u, _, _, _, _, hr⟩ | ⟨u, _, hg, _, _, hr⟩
        · rw [hr] at h; exact absurd h (by decide)
        · rw [hr] at h; exact absurd h (by decide)
        · rw [hr] at h; exact absurd h (by decide)
        · rw [hr]
          exact ⟨u, _, hg, rfl⟩

/-- Input for the amended C24: with a clock standing at 1700000000500 ms the
issued token has `iat` 1700000000 and `exp` 1700086400. -/
theorem C24_exp_is_one_day_after_second_reading_witness :
    1000 ≤ (envAt 1700000000500 []).now 0
      ∧ (envAt 1700000000500 []).now 1 / 1000 = (envAt 1700000000500 []).now 0 / 1000
      ∧ (issuedPayload (envAt 1700000000500 []).now userY).iat = 1700000000
      ∧ (issuedPayload (envAt 1700000000500 []).now userY).exp
          = (issuedPayload (envAt 1700000000500 []).now userY).iat + 86400 :=
  ⟨by decide, rfl, by decide,
   (C24_exp_is_one_day_after_second_reading demoCrypto [] (envAt 1700000000500 [])
      userY).2.2.2.2.1 (by decide) rfl⟩

/-- For a shape-valid login whose password is a string, the response is the same
constant 401 INVALID_CREDENTIALS when no user is stored under the email and
when a user is stored whose password does not match. -/
theorem login_failure_uniform_for_string_password (crypto : Crypto) (users : Store User)
    (env : Env) (req : LoginRequest) (pw : String) (hvalid : req.errors = [])
    (hpw : req.body.password = .str pw)
    (hfail : mapGet users req.body.email = none
      ∨ ∃ u, mapGet users req.body.email = some u ∧ crypto.compare pw u.password = false) :
    postLogin crypto users env req
      = ⟨401, .error "INVALID_CREDENTIALS" "Invalid email or password" .absent⟩ := by
  rcases hfail with hg | ⟨u, hg, hc⟩
  · simp [postLogin, loginTry, hvalid, hg, pure, Except.pure]
  · simp [postLogin, loginTry, bcryptCompare, hvalid, hg, hpw, hc, pure, Except.pure, bind,
      Except.bind]

/-- Claim C27, evaluated where the handler departs from it: the map holds
`y@example.com`; a shape-valid login whose password is the JSON number 123456
is answered 500 INTERNAL_ERROR `Login failed` for that email, because
`bcrypt.compare` rejects the number, and 401 INVALID_CREDENTIALS for an email
that is not registered, because `bcrypt.compare` is not called; the two
responses differ, so they tell whether the email is registered. -/
theorem C27_number_password_tells_registered_email :
    loginReqNumber.errors = [] ∧ loginReqNumberUnknown.errors = []
      ∧ loginReqNumber.body.password = loginReqNumberUnknown.body.password
      ∧ mapGet [("y@example.com", userY)] loginReqNumber.body.email = some userY
      ∧ mapGet [("y@example.com", userY)] loginReqNumberUnknown.body.email = none
      ∧ postLogin demoCrypto [("y@example.com", userY)] (envAt 9 []) loginReqNumber
          = ⟨500, .error "INTERNAL_ERROR" "Login failed" .absent⟩
      ∧ postLogin demoCrypto [("y@example.com", userY)] (envAt 9 []) loginReqNumberUnknown
          = ⟨401, .error "INVALID_CREDENTIALS" "Invalid email or password" .absent⟩
      ∧ postLogin demoCrypto [("y@example.com", userY)] (envAt 9 []) loginReqNumber
          ≠ postLogin demoCrypto [("y@example.com", userY)] (envAt 9 [])
              loginReqNumberUnknown :=
  ⟨rfl, rfl, rfl, by decide, by decide, by decide, by decide, by decide⟩

/-- When no other request is served while the handler is suspended, a
registration never overwrites: with a user already stored under the email a
shape-valid request is answered 409 EMAIL_EXISTS and the map is returned as it
was, and on a 201 response nothing was stored under the email before, one entry
is appended and every other key keeps its value. -/
theorem register_without_overlap_never_overwrites (crypto : Crypto) (users : Store User)
    (env : Env) (req : RegisterRequest) :
    (∀ u, req.errors = [] → mapGet users req.body.email = some u →
        postRegister crypto users env req
          = (⟨409, .error "EMAIL_EXISTS" "Email already registered" .absent⟩, users))
      ∧ ((postRegister crypto users env req).1.status = 201 →
          ∃ u : User, mapGet users req.body.email = none
            ∧ (postRegister crypto users env req).2 = users ++ [(req.body.email, u)]
            ∧ (postRegister crypto users env req).2.length = users.length + 1
            ∧ u.email = req.body.email
            ∧ (∀ k, k ≠ req.body.email →
                mapGet (postRegister crypto users env req).2 k = mapGet users k)) := by
  constructor
  · intro u he hg
    simp [postRegister, registerCheck, he, mapHas, hg]
  · intro h
    rcases postRegister_cases crypto users env req with
      ⟨_, hr⟩ | ⟨_, _, hr⟩ | ⟨_, _, _, hr⟩ | ⟨_, hg, pw, _, hr⟩
    · rw [hr] at h; simp at h
    · rw [hr] at h; simp at h
    · rw [hr] at h; simp at h
    · rw [hr]
      refine ⟨_, hg, mapSet_fresh _ _ _ hg, mapSet_length_fresh _ _ _ hg, rfl, ?_⟩
      intro k hk
      exact mapGet_mapSet_other _ _ _ _ (fun e => hk e.symm)

/-- Claim C28, evaluated where the handler departs from it: two shape-valid
registrations of the unregistered `y@example.com` overlap.  Both pass the
`users.has` check on the empty map and are suspended at `await bcrypt.hash`.
The first resumes, answers 201 and stores the record of `user-Y`.  The second
resumes on the map that now holds that record, answers 201 as well and stores
the record of `user-Z` under the same email: no entry is added, and the
`user_id` and the password hash of the stored account are replaced. -/
theorem C28_overlapping_registrations_overwrite :
    registerReqY.errors = [] ∧ registerReqAgain.errors = []
      ∧ registerReqY.body.email = registerReqAgain.body.email
      ∧ registerCheck [] registerReqY = none
      ∧ registerCheck [] registerReqAgain = none
      ∧ registerResume demoCrypto [] (envAt 0 ["user-Y"]) registerReqY
          = (⟨201, .user (omitKey "password" userY.toObject)⟩, [("y@example.com", userY)])
      ∧ mapGet [("y@example.com", userY)] registerReqAgain.body.email = some userY
      ∧ registerResume demoCrypto [("y@example.com", userY)] (envAt 50 ["user-Z"])
            registerReqAgain
          = (⟨201, .user (omitKey "password" userZ.toObject)⟩, [("y@example.com", userZ)])
      ∧ [("y@example.com", userZ)].length = [("y@example.com", userY)].length
      ∧ userZ.user_id ≠ userY.user_id ∧ userZ.password ≠ userY.password :=
  ⟨rfl, rfl, rfl, by decide, by decide, by decide, by decide, by decide, rfl, by decide,
    by decide⟩

/-! ### Claims C25, C26, C30: the route planning screen -/

theorem mathMin_le (x : Rat) (xs : List Rat) :
    mathMin x xs ≤ x ∧ ∀ y ∈ xs, mathMin x xs ≤ y := by
  induction xs generalizing x with
  | nil => exact ⟨le_refl _, fun y hy => by simp at hy⟩
  | cons a rest ih =>
      have h := ih (min x a)
      have hstep : mathMin x (a :: rest) = mathMin (min x a) rest := rfl
      rw [hstep]
      refine ⟨le_trans h.1 (min_le_left _ _), ?_⟩
      intro y hy
      rcases List.mem_cons.1 hy with rfl | hy
      · exact le_trans h.1 (min_le_right _ _)
      · exact h.2 y hy

theorem le_mathMax (x : Rat) (xs : List Rat) :
    x ≤ mathMax x xs ∧ ∀ y ∈ xs, y ≤ mathMax x xs := by
  induction xs generalizing x with
  | nil => exact ⟨le_refl _, fun y hy => by simp at hy⟩
  | cons a rest ih =>
      have h := ih (max x a)
      have hstep : mathMax x (a :: rest) = mathMax (max x a) rest := rfl
      rw [hstep]
      refine ⟨le_trans (le_max_left _ _) h.1, ?_⟩
      intro y hy
      rcases List.mem_cons.1 hy with rfl | hy
      · exact le_trans (le_max_right _ _) h.1
      · exact h.2 y hy

theorem mathMin_mem (x : Rat) (xs : List Rat) : mathMin x xs ∈ x :: xs := by
  induction xs generalizing x with
  | nil => simp [mathMin]
  | cons a rest ih =>
      have h := ih (min x a)
      have hstep : mathMin x (a :: rest) = mathMin (min x a) rest := rfl
      rw [hstep]
      rcases List.mem_cons.1 h with h0 | h0
      · rw [h0]
        rcases min_choice x a with hc | hc <;> simp [hc]
      · exact List.mem_cons_of_mem _ (List.mem_cons_of_mem _ h0)

theorem mathMax_mem (x : Rat) (xs : List Rat) : mathMax x xs ∈ x :: xs := by
  induction xs generalizing x with
  | nil => simp [mathMax]
  | cons a rest ih =>
      have h := ih (max x a)
      have hstep : mathMax x (a :: rest) = mathMax (max x a) rest := rfl
      rw [hstep]
      rcases List.mem_cons.1 h with h0 | h0
      · rw [h0]
        rcases max_choice x a with hc | hc <;> simp [hc]
      · exact List.mem_cons_of_mem _ (List.mem_cons_of_mem _ h0)

/-- A point between the bounds of an interval lies within 1.3 half-widths of
its midpoint. -/
theorem within_scaled_half_width (lo hi x : Rat) (h1 : lo ≤ x) (h2 : x ≤ hi) :
    |x - (lo + hi) / 2| ≤ (hi - lo) * 1.3 / 2 := by
  have h13 : (1.3 : Rat) = 13 / 10 := by norm_num
  rw [h13, abs_le]
  constructor <;> linarith

/-- Claim C25: for a non-empty destination list `d :: ds`, over exact
rationals, the region is centred on the midpoint of the bounding box of the
destinations (whose sides are attained coordinates that bound all the others),
its deltas are 1.3 times the sides of the box, and every destination lies
within half a delta of the centre in latitude and in longitude; for a single
destination both deltas are 0. -/
theorem C25_region_fits_destinations (d : Destination) (ds : List Destination) :
    (∀ e ∈ d :: ds,
        |e.coordinates.lat - (getMapRegion (some (d :: ds))).latitude|
            ≤ (getMapRegion (some (d :: ds))).latitudeDelta / 2
          ∧ |e.coordinates.lon - (getMapRegion (some (d :: ds))).longitude|
            ≤ (getMapRegion (some (d :: ds))).longitudeDelta / 2)
      ∧ (∃ minLat maxLat minLon maxLon : Rat,
          minLat ∈ (d :: ds).map (fun e => e.coordinates.lat)
            ∧ maxLat ∈ (d :: ds).map (fun e => e.coordinates.lat)
            ∧ minLon ∈ (d :: ds).map (fun e => e.coordinates.lon)
            ∧ maxLon ∈ (d :: ds).map (fun e => e.coordinates.lon)
            ∧ (∀ e ∈ d :: ds, minLat ≤ e.coordinates.lat ∧ e.coordinates.lat ≤ maxLat
                ∧ minLon ≤ e.coordinates.lon ∧ e.coordinates.lon ≤ maxLon)
            ∧ getMapRegion (some (d :: ds))
              = ⟨(minLat + maxLat) / 2, (minLon + maxLon) / 2, (maxLat - minLat) * 1.3,
                  (maxLon - minLon) * 1.3⟩)
      ∧ (getMapRegion (some [d])).latitudeDelta = 0
      ∧ (getMapRegion (some [d])).longitudeDelta = 0 := by
  have hbox : ∀ e ∈ d :: ds,
      mathMin d.coordinates.lat (ds.map (fun e => e.coordinates.lat)) ≤ e.coordinates.lat
        ∧ e.coordinates.lat ≤ mathMax d.coordinates.lat (ds.map (fun e => e.coordinates.lat))
        ∧ mathMin d.coordinates.lon (ds.map (fun e => e.coordinates.lon)) ≤ e.coordinates.lon
        ∧ e.coordinates.lon
            ≤ mathMax d.coordinates.lon (ds.map (fun e => e.coordinates.lon)) := by
    intro e he
    rcases List.mem_cons.1 he with rfl | he
    · exact ⟨(mathMin_le _ _).1, (le_mathMax _ _).1, (mathMin_le _ _).1, (le_mathMax _ _).1⟩
    · exact ⟨(mathMin_le _ _).2 _ (List.mem_map_of_mem (fun e => e.coordinates.lat) he),
        (le_mathMax _ _).2 _ (List.mem_map_of_mem (fun e => e.coordinates.lat) he),
        (mathMin_le _ _).2 _ (List.mem_map_of_mem (fun e => e.coordinates.lon) he),
        (le_mathMax _ _).2 _ (List.mem_map_of_mem (fun e => e.coordinates.lon) he)⟩
  refine ⟨?_, ?_, ?_, ?_⟩
  · intro e he
    obtain ⟨h1, h2, h3, h4⟩ := hbox e he
    exact ⟨within_scaled_half_width _ _ _ h1 h2, within_scaled_half_width _ _ _ h3 h4⟩
  · exact ⟨_, _, _, _, mathMin_mem _ _, mathMax_mem _ _, mathMin_mem _ _, mathMax_mem _ _,
      hbox, rfl⟩
  · simp [getMapRegion, mathMin, mathMax]
  · simp [getMapRegion, mathMin, mathMax]

/-- Input for C25: `P` at (1, 10) and `Q` at (3, 4); the region is centred at
(2, 7) and `Q` lies within half a delta of the centre. -/
theorem C25_region_fits_destinations_witness :
    destQ ∈ [destP, destQ]
      ∧ |destQ.coordinates.lat - (getMapRegion (some [destP, destQ])).latitude|
          ≤ (getMapRegion (some [destP, destQ])).latitudeDelta / 2
      ∧ |destQ.coordinates.lon - (getMapRegion (some [destP, destQ])).longitude|
          ≤ (getMapRegion (some [destP, destQ])).longitudeDelta / 2 :=
  ⟨List.mem_cons_of_mem _ (List.mem_cons_self _ _),
   (C25_region_fits_destinations destP [destQ]).1 destQ
     (List.mem_cons_of_mem _ (List.mem_cons_self _ _))⟩

/-- Claim C26: a shape-valid optimize request with a truthy `schedule_id` and no
`destinations` field, which is what the route planning screen sends, is
answered 404 SCHEDULE_NOT_FOUND in every state of the two maps, and the state,
the `routes` map included, is left as it was. -/
theorem C26_client_optimize_request_is_always_404 (s : State) (env : Env)
    (req : OptimizeRequest) (hvalid : req.errors = [])
    (hid : truthy req.body.schedule_id = true) (hnone : req.body.destinations = none) :
    step s (.postOptimize env req)
      = (⟨404, .error "SCHEDULE_NOT_FOUND" "Schedule ID does not exist or has expired"
            .absent⟩, s) := by
  rw [step_postOptimize]
  simp [postOptimize, optimizeTry, hvalid, hid, hnone, pure, Except.pure]

/-- Input for C26: `user-Y` has just parsed `schedule-1`, which is stored, and
the screen sends that id. -/
theorem C26_client_optimize_request_is_always_404_witness :
    mapGet (run State.empty demoRequests).schedules "schedule-1" = some scheduleY
      ∧ scheduleY.user_id = reqClient.userId
      ∧ reqClient.body.schedule_id = some "schedule-1"
      ∧ step (run State.empty demoRequests) (.postOptimize (envAt 2000 ["route-2"]) reqClient)
          = (⟨404, .error "SCHEDULE_NOT_FOUND" "Schedule ID does not exist or has expired"
                .absent⟩, run State.empty demoRequests) :=
  ⟨rfl, rfl, rfl,
   C26_client_optimize_request_is_always_404 (run State.empty demoRequests)
     (envAt 2000 ["route-2"]) reqClient rfl (by decide) rfl⟩

/-- Doubling `num` as often as `scaleUp` says reaches `bound`, unless the count
stopped at `fuel`. -/
theorem scaleUp_reaches (fuel num bound : Nat) :
    bound ≤ num * 2 ^ scaleUp num bound fuel ∨ scaleUp num bound fuel = fuel := by
  induction fuel generalizing num with
  | zero => right; rfl
  | succ fuel ih =>
      by_cases h : bound ≤ num
      · left
        simp [scaleUp, h]
      · simp only [scaleUp, h, if_false]
        rcases ih (2 * num) with h1 | h1
        · left
          have e : num * 2 ^ (scaleUp (2 * num) bound fuel + 1)
              = 2 * num * 2 ^ scaleUp (2 * num) bound fuel := by
            rw [Nat.pow_succ]
            ac_rfl
          rw [e]
          exact h1
        · right
          rw [h1]

theorem scaleDown_of_lt (fuel num bound : Nat) (h : num < bound) :
    scaleDown num bound fuel = 0 := by
  cases fuel with
  | zero => rfl
  | succ fuel => simp [scaleDown, h]

/-- Rounding `m P / 60` to the nearest integer and dividing by `P` gives the
integer quotient of `m` by 60 as soon as `P` exceeds 30. -/
theorem roundHalfEven_div (m P : Nat) (hP : 30 < P) :
    roundHalfEven (m * P) 60 / P = m / 60 := by
  have hm : m = 60 * (m / 60) + m % 60 := (Nat.div_add_mod m 60).symm
  have hR : m % 60 < 60 := Nat.mod_lt m (by decide)
  have hx : m * P = 60 * (m / 60 * P) + m % 60 * P := by
    conv_lhs => rw [hm]
    rw [Nat.add_mul, Nat.mul_assoc]
  have hRP : m % 60 * P ≤ 59 * P := Nat.mul_le_mul_right P (by omega)
  have hsucc : (m / 60 + 1) * P = m / 60 * P + P := by
    rw [Nat.add_mul, Nat.one_mul]
  apply Nat.div_eq_of_lt_le
  · unfold roundHalfEven
    simp only
    split_ifs <;> omega
  · rw [hsucc]
    unfold roundHalfEven
    simp only
    split_ifs <;> omega

/-- Below `2^53` the floor of the double quotient by 60 is the integer
quotient. -/
theorem floorDivDouble_sixty (m : Nat) (h : m < 2 ^ 53) : floorDivDouble m 60 = m / 60 := by
  have hdown : scaleDown m (60 * 2 ^ 53) 1100 = 0 := scaleDown_of_lt _ _ _ (by omega)
  have hP : 30 < 2 ^ scaleUp m (60 * 2 ^ 52) 1100 := by
    rcases scaleUp_reaches 1100 m (60 * 2 ^ 52) with h1 | h1
    · by_contra hle
      have hle1 : 2 ^ scaleUp m (60 * 2 ^ 52) 1100 ≤ 30 := Nat.le_of_not_lt hle
      have h2 : m * 2 ^ scaleUp m (60 * 2 ^ 52) 1100 ≤ m * 30 := Nat.mul_le_mul_left m hle1
      omega
    · have h5 : 5 ≤ scaleUp m (60 * 2 ^ 52) 1100 := by
        rw [h1]
        decide
      exact lt_of_lt_of_le (by decide : 30 < 2 ^ 5) (Nat.pow_le_pow_right (by decide) h5)
  unfold floorDivDouble
  simp only [hdown, Nat.pow_zero, Nat.mul_one]
  exact roundHalfEven_div m _ hP

theorem numberToString_safe (largeDigits : Nat → String) (n : Nat) (h : n < 2 ^ 53) :
    numberToString largeDigits n = toString n := by
  unfold numberToString
  rw [if_pos h]

/-- Rounding `m P / 1000` to the nearest integer and dividing by `P` gives the
integer quotient of `m` by 1000 as soon as `P` exceeds 500. -/
theorem roundHalfEven_div_thousand (m P : Nat) (hP : 500 < P) :
    roundHalfEven (m * P) 1000 / P = m / 1000 := by
  have hm : m = 1000 * (m / 1000) + m % 1000 := (Nat.div_add_mod m 1000).symm
  have hR : m % 1000 < 1000 := Nat.mod_lt m (by decide)
  have hx : m * P = 1000 * (m / 1000 * P) + m % 1000 * P := by
    conv_lhs => rw [hm]
    rw [Nat.add_mul, Nat.mul_assoc]
  have hRP : m % 1000 * P ≤ 999 * P := Nat.mul_le_mul_right P (by omega)
  have hsucc : (m / 1000 + 1) * P = m / 1000 * P + P := by
    rw [Nat.add_mul, Nat.one_mul]
  apply Nat.div_eq_of_lt_le
  · unfold roundHalfEven
    simp only
    split_ifs <;> omega
  · rw [hsucc]
    unfold roundHalfEven
    simp only
    split_ifs <;> omega

/-- Below `2^53` the floor of the double quotient by 1000 is the integer
quotient, which is what `tokenPayload` uses for clock readings. -/
theorem floorDivDouble_thousand (m : Nat) (h : m < 2 ^ 53) :
    floorDivDouble m 1000 = m / 1000 := by
  have hdown : scaleDown m (1000 * 2 ^ 53) 1100 = 0 := scaleDown_of_lt _ _ _ (by omega)
  have hP : 500 < 2 ^ scaleUp m (1000 * 2 ^ 52) 1100 := by
    rcases scaleUp_reaches 1100 m (1000 * 2 ^ 52) with h1 | h1
    · by_contra hle
      have hle1 : 2 ^ scaleUp m (1000 * 2 ^ 52) 1100 ≤ 500 := Nat.le_of_not_lt hle
      have h2 : m * 2 ^ scaleUp m (1000 * 2 ^ 52) 1100 ≤ m * 500 :=
        Nat.mul_le_mul_left m hle1
      omega
    · have h9 : 9 ≤ scaleUp m (1000 * 2 ^ 52) 1100 := by
        rw [h1]
        decide
      exact lt_of_lt_of_le (by decide : 500 < 2 ^ 9) (Nat.pow_le_pow_right (by decide) h9)
  unfold floorDivDouble
  simp only [hdown, Nat.pow_zero, Nat.mul_one]
  exact roundHalfEven_div_thousand m _ hP

/-- Claim C30 fails as stated: `2^56 + 160` is the value of a double (53-bit
significand 4503599627370506, exponent 4); its exact quotient by 60 is
1200959900632134 with remainder 56, but the quotient of doubles rounds up to
1200959900632135 before the floor is taken, so `H` is not `floor(m / 60)` and
`60 H + R` is not `m`. -/
theorem C30_large_minutes_are_not_decomposed :
    2 ^ 56 + 160 = 4503599627370506 * 2 ^ 4 ∧ 4503599627370506 < 2 ^ 53
      ∧ (2 ^ 56 + 160) / 60 = 1200959900632134 ∧ (2 ^ 56 + 160) % 60 = 56
      ∧ floorDivDouble (2 ^ 56 + 160) 60 = 1200959900632135
      ∧ 60 * floorDivDouble (2 ^ 56 + 160) 60 + (2 ^ 56 + 160) % 60 ≠ 2 ^ 56 + 160 := by
  have hdiv : floorDivDouble (2 ^ 56 + 160) 60 = 1200959900632135 := by decide
  refine ⟨by norm_num, by norm_num, by norm_num, by norm_num, hdiv, ?_⟩
  rw [hdiv]
  norm_num

/-- Claim C30 as amended: for every non-negative integer `m` below `2^53`, the
range in which a double holds every integer, `formatTime` renders `Rm` with
`R = m` when `m < 60` and `Hh Rm` with `H = m / 60 ≥ 1` and `R = m % 60`
otherwise; in both cases `60 H + R = m` and `R < 60`; 147 renders as
`2h 27m`. -/
theorem C30_formatTime_decomposes_minutes (largeDigits : Nat → String) (m : Nat)
    (hsafe : m < 2 ^ 53) :
    floorDivDouble m 60 = m / 60
      ∧ (m < 60 → formatTime largeDigits m = toString m ++ "m")
      ∧ (60 ≤ m →
          formatTime largeDigits m = toString (m / 60) ++ "h " ++ toString (m % 60) ++ "m"
            ∧ 1 ≤ m / 60)
      ∧ 60 * (m / 60) + m % 60 = m
      ∧ m % 60 < 60
      ∧ (m < 60 → m / 60 = 0 ∧ m % 60 = m)
      ∧ formatTime largeDigits 147 = "2h 27m" := by
  have hdiv := floorDivDouble_sixty m hsafe
  have hmod : m % 60 < 2 ^ 53 := lt_of_le_of_lt (Nat.mod_le m 60) hsafe
  have hquot : m / 60 < 2 ^ 53 := lt_of_le_of_lt (Nat.div_le_self m 60) hsafe
  refine ⟨hdiv, ?_, ?_, Nat.div_add_mod m 60, Nat.mod_lt m (by decide), ?_, ?_⟩
  · intro h
    have h0 : m / 60 = 0 := Nat.div_eq_of_lt h
    have h1 : m % 60 = m := Nat.mod_eq_of_lt h
    simp [formatTime, hdiv, h0, h1, numberToString_safe largeDigits m hsafe]
  · intro h
    have h0 : 1 ≤ m / 60 := (Nat.le_div_iff_mul_le (by decide)).2 (by omega)
    have h1 : m / 60 > 0 := h0
    exact ⟨by simp [formatTime, hdiv, h1, numberToString_safe largeDigits _ hmod,
      numberToString_safe largeDigits _ hquot], h0⟩
  · intro h
    exact ⟨Nat.div_eq_of_lt h, Nat.mod_eq_of_lt h⟩
  · have h147 : floorDivDouble 147 60 = 2 := floorDivDouble_sixty 147 (by norm_num)
    have e1 : numberToString largeDigits 2 = "2" := by
      rw [numberToString_safe largeDigits 2 (by norm_num)]
      decide
    have e2 : numberToString largeDigits 27 = "27" := by
      rw [numberToString_safe largeDigits 27 (by norm_num)]
      decide
    have e3 : (147 : Nat) % 60 = 27 := by norm_num
    simp only [formatTime, h147, e3, e1, e2]
    decide

/-- Input for the amended C30: 147 minutes, the total of the mock summary. -/
theorem C30_formatTime_decomposes_minutes_witness :
    147 < 2 ^ 53 ∧ 60 ≤ 147
      ∧ formatTime (fun _ => "") 147
          = toString (147 / 60) ++ "h " ++ toString (147 % 60) ++ "m"
      ∧ 1 ≤ 147 / 60 :=
  ⟨by norm_num, by decide,
   (C30_formatTime_decomposes_minutes (fun _ => "") 147 (by norm_num)).2.2.1 (by decide)⟩

/-! ### Claim C29: the authorization scheme -/

theorem splitSpace_ne_nil (cs : List Char) : splitSpace cs ≠ [] := by
  cases cs with
  | nil => simp [splitSpace]
  | cons c rest =>
      unfold splitSpace
      cases splitSpace rest with
      | nil => by_cases h : c = ' ' <;> simp [h]
      | cons w ws => by_cases h : c = ' ' <;> simp [h]

/-- One step of `splitSpace`, given the pieces of the tail. -/
theorem splitSpace_cons (c : Char) (cs : List Char) (w : List Char) (ws : List (List Char))
    (h : splitSpace cs = w :: ws) :
    splitSpace (c :: cs) = if c = ' ' then [] :: w :: ws else (c :: w) :: ws := by
  rw [splitSpace, h]

/-- A word without a space is a single piece. -/
theorem splitSpace_word (word : List Char) (h : ' ' ∉ word) : splitSpace word = [word] := by
  induction word with
  | nil => rfl
  | cons c rest ih =>
      have hc : c ≠ ' ' := fun e => h (by rw [e]; exact List.mem_cons_self _ _)
      have hrest : ' ' ∉ rest := fun e => h (List.mem_cons_of_mem _ e)
      rw [splitSpace_cons c rest rest [] (ih hrest)]
      simp [hc]

/-- The pieces of a space-free word followed by a space and a remainder are the
word and the pieces of the remainder. -/
theorem splitSpace_scheme (word rest : List Char) (h : ' ' ∉ word) :
    splitSpace (word ++ ' ' :: rest) = word :: splitSpace rest := by
  induction word with
  | nil =>
      show splitSpace (' ' :: rest) = [] :: splitSpace rest
      cases hs : splitSpace rest with
      | nil => exact absurd hs (splitSpace_ne_nil rest)
      | cons w ws =>
          rw [splitSpace_cons ' ' rest w ws hs]
          simp
  | cons c word ih =>
      have hc : c ≠ ' ' := fun e => h (by rw [e]; exact List.mem_cons_self _ _)
      have hword : ' ' ∉ word := fun e => h (List.mem_cons_of_mem _ e)
      show splitSpace (c :: (word ++ ' ' :: rest)) = (c :: word) :: splitSpace rest
      rw [splitSpace_cons c _ word (splitSpace rest) (ih hword)]
      simp [hc]

/-- The token taken from a header `X t` with a space-free scheme word `X` is the
first piece of `t`, whatever `X` is. -/
theorem extractToken_scheme (X t : String) (hX : ' ' ∉ X.data) :
    extractToken (some (X ++ " " ++ t)) = ((splitSpace t.data)[0]?).map String.mk := by
  have hdata : (X ++ " " ++ t).data = X.data ++ ' ' :: t.data := by
    simp [String.data_append]
  have hne : X ++ " " ++ t ≠ "" := by
    intro e
    have e1 := congrArg String.data e
    rw [hdata] at e1
    simp at e1
  simp only [extractToken, hne, if_false, hdata, splitSpace_scheme _ _ hX,
    List.getElem?_cons_succ]

/-- Claim C29: for scheme words `X` and `Y` without a space and every `t`, the
headers `X t` and `Y t` have the same outcome; and a header whose scheme word
is anything at all, `Bearer` or not, passes with `req.user` set when the part
after the first space is a token that verifies. -/
theorem C29_scheme_is_ignored (verify : String → Except JwtError TokenPayload)
    (X Y t : String) (hX : ' ' ∉ X.data) (hY : ' ' ∉ Y.data) :
    authenticateToken verify (some (X ++ " " ++ t))
        = authenticateToken verify (some (Y ++ " " ++ t))
      ∧ (∀ user, ' ' ∉ t.data → t ≠ "" → verify t = .ok user →
          authenticateToken verify (some (X ++ " " ++ t)) = .next user) := by
  constructor
  · simp only [authenticateToken, extractToken_scheme X t hX, extractToken_scheme Y t hY]
  · intro user ht hne hv
    have hx : extractToken (some (X ++ " " ++ t)) = some t := by
      rw [extractToken_scheme X t hX, splitSpace_word _ ht]
      rfl
    have htruthy : truthy (some t) = true := by simp [truthy, hne]
    simp [authenticateToken, hx, htruthy, hv]

/-- Input for C29: the scheme word `Basic` with the token `good` passes like
`Bearer good`. -/
theorem C29_scheme_is_ignored_witness :
    ' ' ∉ "Basic".data ∧ ' ' ∉ "Bearer".data
      ∧ authenticateToken demoVerify (some ("Basic" ++ " " ++ "good"))
          = authenticateToken demoVerify (some ("Bearer" ++ " " ++ "good"))
      ∧ authenticateToken demoVerify (some ("Basic" ++ " " ++ "good"))
          = .next ⟨"user-Y", "y@example.com", 0, 86400⟩ :=
  ⟨by decide, by decide,
   (C29_scheme_is_ignored demoVerify "Basic" "Bearer" "good" (by decide) (by decide)).1,
   (C29_scheme_is_ignored demoVerify "Basic" "Bearer" "good" (by decide) (by decide)).2
     ⟨"user-Y", "y@example.com", 0, 86400⟩ (by decide) (by decide) (by simp [demoVerify])⟩

end Waywise
